import Mathlib

/-!
# Eevee light cache (`eevee_lightcache.c`)

A shallow embedding of the irradiance pool sizer, the probe inventory
(count / gather), the light cache constructor and the light bake job with its
GPU context bracketing, followed by the properties established about them.

Conventions of the embedding

* A C `int` is an `Int`.  In the pool sizer every operation is guarded: a
  division by zero, a result outside the `int` range, or a float to `int`
  conversion outside that range is undefined in C and makes the embedded
  function return `none`.  The products, the sum and the increments of the
  counting pass of the probe inventory are guarded in the same way.
* The `float` arithmetic of the sizer is binary32 with round to nearest, ties
  to even, on exact representations of the values.
* A pointer to a GPU object or context is a `Handle`; `0` is `NULL`.  Creating
  a texture, framebuffer or context succeeds and returns a handle that was
  never handed out before.
* A pointer to a heap array is an `Option (List _)`; `none` is `NULL`, and a
  store outside the block makes the embedded function return `none`.
* The calls into the window manager, gawain and the draw manager that concern
  a context are recorded, in order, in a trace.
-/

namespace Eevee

/-! ## C arithmetic -/

def INT_MIN : Int := -2147483648

def INT_MAX : Int := 2147483647

/-- The value of an `int` expression: `none` when it does not fit an `int`. -/
def int_result (x : Int) : Option Int :=
  if INT_MIN ≤ x ∧ x ≤ INT_MAX then some x else none

/-- C `a / b` on `int`: truncating, undefined for a zero divisor. -/
def int_div (a b : Int) : Option Int :=
  if b = 0 then none else int_result (Int.tdiv a b)

/-- C `a * b` on `int`. -/
def int_mul (a b : Int) : Option Int := int_result (a * b)

/-- C `a + b` on `int`. -/
def int_add (a b : Int) : Option Int := int_result (a + b)

/-- C `a - b` on `int`. -/
def int_sub (a b : Int) : Option Int := int_result (a - b)

/-- Modelled from the spec: `max_ii` of the math utility library, which is not
part of this file; the larger of two ints (step 4 and 5 of the sizer). -/
def max_ii (a b : Int) : Int := if b < a then a else b

/-- Modelled from the spec: `min_ii` of the math utility library, which is not
part of this file; the smaller of two ints (step 4 of the sizer). -/
def min_ii (a b : Int) : Int := if a < b then a else b

/-- Modelled from the spec: the `MIN2` macro of the utility headers, which is
not part of this file; the smaller of two values (step 2 of the sizer). -/
def MIN2 (a b : Int) : Int := if a < b then a else b

/-! ## binary32 arithmetic on the values the sizer uses

A finite non-negative binary32 value is represented exactly: an integer valued
one by that integer, a quotient by its numerator over `2 ^ 64`. -/

/-- How many times `y` is halved before it drops below `2 ^ 24`, i.e. the
number of low bits that do not fit a 24 bit significand. -/
def f32_excess : Nat → Nat → Nat
  | 0, _ => 0
  | fuel + 1, y => if y < 2 ^ 24 then 0 else f32_excess fuel (y / 2) + 1

/-- The conversion `(float)n` of a non-negative integer: `n` rounded to 24
significant bits, ties to even. -/
def f32_of_nat (n : Nat) : Nat :=
  let k := f32_excess 64 n
  let m := n / 2 ^ k
  let r := n % 2 ^ k
  if 2 ^ k < 2 * r ∨ (2 * r = 2 ^ k ∧ m % 2 = 1) then (m + 1) * 2 ^ k else m * 2 ^ k

/-- The binary32 quotient `p / q` of two integer valued floats (`0 < q`,
`q < 2 ^ 41`), as a numerator over `2 ^ 64`: the exact quotient rounded to 24
significant bits, ties to even. -/
def f32_div (p q : Nat) : Nat :=
  let x := p * 2 ^ 64
  let y := x / q
  let k := f32_excess 128 y
  let m := y / 2 ^ k
  let rem := x - m * 2 ^ k * q
  if 2 ^ k * q < 2 * rem ∨ (2 * rem = 2 ^ k * q ∧ m % 2 = 1) then (m + 1) * 2 ^ k
  else m * 2 ^ k

/-- The function `ceilf` on a non-negative value given as a numerator over `2 ^ 64`. -/
def ceilf (s : Nat) : Nat := (s + (2 ^ 64 - 1)) / 2 ^ 64

/-- The integer part of a non-negative value given as a numerator over `2 ^ 64`
(`ceilf` of its negation, negated). -/
def floorf (s : Nat) : Nat := s / 2 ^ 64

/-- The expression `(int)ceilf((float)a / (float)b)`.  A zero `b` gives an
infinity or a NaN, whose conversion to `int` is undefined. -/
def int_ceilf_div (a b : Int) : Option Int :=
  if b = 0 then none
  else
    let s := f32_div (f32_of_nat a.natAbs) (f32_of_nat b.natAbs)
    if (0 ≤ a ∧ 0 < b) ∨ (a ≤ 0 ∧ b < 0) then int_result (ceilf s)
    else int_result (-(floorf s : Int))

/-! ## Irradiance pool sizing -/

/-- The irradiance encoding selected at compile time. -/
inductive IrradianceMode where
  | IRRADIANCE_SH_L2
  | IRRADIANCE_CUBEMAP
  | IRRADIANCE_HL2
  deriving DecidableEq, Repr

def IRRADIANCE_SAMPLE_SIZE_X : IrradianceMode → Int
  | .IRRADIANCE_SH_L2 => 4
  | .IRRADIANCE_CUBEMAP => 8
  | .IRRADIANCE_HL2 => 4

def IRRADIANCE_SAMPLE_SIZE_Y : IrradianceMode → Int
  | .IRRADIANCE_SH_L2 => 4
  | .IRRADIANCE_CUBEMAP => 8
  | .IRRADIANCE_HL2 => 2

def IRRADIANCE_MAX_POOL_LAYER : Int := 256

def IRRADIANCE_MAX_POOL_SIZE : Int := 1024

/-- The function `irradiance_pool_size_get`; the result is `r_size[0]`,
`r_size[1]`, `r_size[2]`. -/
def irradiance_pool_size_get (mode : IrradianceMode) (visibility_size total_samples : Int) :
    Option (Int × Int × Int) := do
  let per_x ← int_div visibility_size (IRRADIANCE_SAMPLE_SIZE_X mode)
  let per_y ← int_div visibility_size (IRRADIANCE_SAMPLE_SIZE_Y mode)
  let irr_per_vis ← int_mul per_x per_y
  let irr_plus ← int_add irr_per_vis 1
  let layer_ct := MIN2 irr_plus IRRADIANCE_MAX_POOL_LAYER
  let layer_less ← int_sub layer_ct 1
  let texel_ct ← int_ceilf_div total_samples layer_less
  let cols ← int_div IRRADIANCE_MAX_POOL_SIZE visibility_size
  let r_size0 ← int_mul visibility_size (max_ii 1 (min_ii texel_ct cols))
  let rows ← int_div texel_ct cols
  let r_size1 ← int_mul visibility_size (max_ii 1 rows)
  pure (r_size0, r_size1, layer_ct)

/-- The quantity `irr_per_vis` of `irradiance_pool_size_get`, the number of
irradiance samples stored per visibility sample. -/
def irr_per_vis (mode : IrradianceMode) (visibility_size : Int) : Int :=
  Int.tdiv visibility_size (IRRADIANCE_SAMPLE_SIZE_X mode) *
    Int.tdiv visibility_size (IRRADIANCE_SAMPLE_SIZE_Y mode)

/-! ## Scene data -/

/-- A pointer to a GPU texture, framebuffer or context; `0` is `NULL`. -/
abbrev Handle := Nat

/-- Modelled from the spec: the type tag of an evaluated object, declared in the
DNA headers, which are not part of this file; only light probes are told apart. -/
inductive ObjectType where
  | OB_LIGHTPROBE
  | OB_OTHER
  deriving DecidableEq, Repr

/-- Modelled from the spec: the `type` of a light probe, declared in the DNA
headers, which are not part of this file. -/
inductive LightProbeType where
  | LIGHTPROBE_TYPE_CUBE
  | LIGHTPROBE_TYPE_PLANAR
  | LIGHTPROBE_TYPE_GRID
  deriving DecidableEq, Repr

/-- The fields of a `LightProbe` datablock the file reads; `id` stands for the
address of the datablock. -/
structure LightProbe where
  id : Nat
  type : LightProbeType
  grid_resolution_x : Int
  grid_resolution_y : Int
  grid_resolution_z : Int
  deriving DecidableEq, Repr

/-- An evaluated object; `data` is `ob->data` read as a `LightProbe`, which the
file does only after checking `type`. -/
structure Object where
  type : ObjectType
  data : LightProbe
  deriving DecidableEq, Repr

/-- The settings of `SceneEEVEE` the file reads. -/
structure SceneEEVEE where
  gi_diffuse_bounces : Int
  gi_visibility_resolution : Int
  gi_cubemap_resolution : Int
  deriving DecidableEq, Repr

/-- Modelled from the spec: the compact grid record of the cache, declared in
the private header, which is not part of this file; `source` is the object the
record was converted from, `none` in a zeroed record. -/
structure EEVEE_LightGrid where
  source : Option Object
  deriving DecidableEq, Repr

/-- Modelled from the spec: the compact cube record of the cache, declared in
the private header, which is not part of this file; `source` is the object the
record was converted from, `none` in a zeroed record. -/
structure EEVEE_LightProbe where
  source : Option Object
  deriving DecidableEq, Repr

/-- Modelled from the spec: `EEVEE_lightprobes_grid_data_from_object` of the
light probe module, which is not part of this file: it converts the probe's
transform and shape into the record it is given. -/
def EEVEE_lightprobes_grid_data_from_object (ob : Object) : EEVEE_LightGrid :=
  { source := some ob }

/-- Modelled from the spec: `EEVEE_lightprobes_cube_data_from_object` of the
light probe module, which is not part of this file: it converts the probe's
transform and clip distances into the record it is given. -/
def EEVEE_lightprobes_cube_data_from_object (ob : Object) : EEVEE_LightProbe :=
  { source := some ob }

/-- The light cache: both atlas textures, both record arrays and the flags. -/
structure EEVEE_LightCache where
  flag : Nat
  grid_tx : Handle
  cube_tx : Handle
  grid_data : Option (List EEVEE_LightGrid)
  cube_data : Option (List EEVEE_LightProbe)
  deriving DecidableEq, Repr

/-- The fields of `EEVEE_LightBake` the file writes. -/
structure EEVEE_LightBake where
  rt_color : Handle
  rt_depth : Handle
  rt_fb : List Handle
  rt_res : Int
  cube_count : Nat
  grid_count : Nat
  total_irr_samples : Int
  bounce_count : Int
  vis_res : Int
  grid_prev : Handle
  grid_prb : Option (List (Option LightProbe))
  ref_cube_res : Int
  cube_prb : Option (List (Option LightProbe))
  gl_context : Handle
  gwn_context : Handle
  deriving DecidableEq, Repr

/-- A call into the window manager, gawain or the draw manager that concerns a
context, with its argument or the handle it returned. -/
inductive Call where
  | DRW_opengl_context_enable
  | DRW_opengl_context_disable
  | DRW_opengl_render_context_enable (re_gl_context : Handle)
  | DRW_opengl_render_context_disable (re_gl_context : Handle)
  | DRW_gawain_render_context_enable (re_gwn_context : Handle)
  | DRW_gawain_render_context_disable (re_gwn_context : Handle)
  | WM_opengl_context_create (ret : Handle)
  | WM_opengl_context_dispose (ctx : Handle)
  | GWN_context_create (ret : Handle)
  | GWN_context_discard (ctx : Handle)
  | DRW_custom_pipeline
  deriving DecidableEq, Repr

/-- What the job shares with its surroundings: the allocator of GPU objects
(every handle handed out so far is at most `next_handle`), the calls made so
far, the cache pointer of the original scene, whether the evaluated scene
points to the same cache, and the `do_update` flag of the job runner. -/
structure World where
  next_handle : Nat
  trace : List Call
  light_cache : Option EEVEE_LightCache
  eval_shares_cache : Bool
  do_update : Int
  deriving DecidableEq, Repr

/-- A successful creation of a GPU object or context: a handle that is not
`NULL` and was never handed out before. -/
def World.create (w : World) : Handle × World :=
  (w.next_handle + 1, { w with next_handle := w.next_handle + 1 })

/-- One more call in the trace. -/
def World.call (w : World) (c : Call) : World :=
  { w with trace := w.trace ++ [c] }

/-- A store `a[i] = v` into a heap array: undefined through `NULL` and outside
the block. -/
def array_store {α : Type} (a : Option (List α)) (i : Nat) (v : α) : Option (List α) :=
  match a with
  | none => none
  | some block => if i < block.length then some (block.set i v) else none

/-- The allocation `MEM_callocN(sizeof(elem) * count)`: `count` zeroed elements. -/
def MEM_callocN {α : Type} (zero : α) (count : Nat) : Option (List α) :=
  some (List.replicate count zero)

/-! ## Light cache -/

/-- The function `EEVEE_lightcache_validate`. -/
def EEVEE_lightcache_validate (light_cache : Option EEVEE_LightCache) (_eevee : SceneEEVEE)
    (_cube_count : Nat) (_irr_samples : Int) : Bool :=
  match light_cache with
  | some _ => true
  | none => false

/-- The function `EEVEE_lightcache_create`: a zeroed cache whose two atlas
textures are created as 1 x 1 x 1 arrays. -/
def EEVEE_lightcache_create (_eevee : SceneEEVEE) (_cube_count : Nat) (_irr_samples : Int)
    (w : World) : EEVEE_LightCache × World :=
  let light_cache : EEVEE_LightCache :=
    { flag := 0, grid_tx := 0, cube_tx := 0, grid_data := none, cube_data := none }
  let (grid_tx, w) := w.create
  let light_cache := { light_cache with grid_tx := grid_tx }
  let (cube_tx, w) := w.create
  let light_cache := { light_cache with cube_tx := cube_tx }
  (light_cache, w)

/-! ## Light bake job -/

/-- The function `EEVEE_lightbake_job_data_alloc`: a zeroed job, with a GL
context of its own when it is to run as a job. -/
def EEVEE_lightbake_job_data_alloc (run_as_job : Bool) (w : World) : EEVEE_LightBake × World :=
  let lbake : EEVEE_LightBake :=
    { rt_color := 0, rt_depth := 0, rt_fb := List.replicate 6 0, rt_res := 0,
      cube_count := 0, grid_count := 0, total_irr_samples := 0, bounce_count := 0,
      vis_res := 0, grid_prev := 0, grid_prb := none, ref_cube_res := 0, cube_prb := none,
      gl_context := 0, gwn_context := 0 }
  if run_as_job then
    let (gl_context, w) := w.create
    ({ lbake with gl_context := gl_context }, w.call (.WM_opengl_context_create gl_context))
  else
    (lbake, w)

/-- Modelled from the spec: the macro `GPU_framebuffer_ensure_config` of the GPU
module, which is not part of this file: the framebuffer is created when the
handle is `NULL` and is then given its attachments. -/
def GPU_framebuffer_ensure_config (fb : Handle) (w : World) : Handle × World :=
  if fb = 0 then w.create else (fb, w)

/-- The loop of `eevee_lightbake_create_resources` over the cube faces `i`,
`i + 1`, ... (`faces` of them). -/
def create_face_framebuffers : Nat → Nat → List Handle → World → List Handle × World
  | 0, _, rt_fb, w => (rt_fb, w)
  | faces + 1, i, rt_fb, w =>
    let (fb, w) := GPU_framebuffer_ensure_config (rt_fb.getD i 0) w
    create_face_framebuffers faces (i + 1) (rt_fb.set i fb) w

/-- The conversion of an `int` to `float`, the value kept as an integer. -/
def float_of_int (x : Int) : Int :=
  if 0 ≤ x then (f32_of_nat x.natAbs : Int) else -(f32_of_nat x.natAbs : Int)

/-- The end of `eevee_lightbake_create_resources`: the light cache of the
original scene is freed when it does not validate, created when there is none,
and shared with the evaluated scene. -/
def create_resources_light_cache (eevee : SceneEEVEE) (lbake : EEVEE_LightBake) (w : World) :
    World :=
  let lcache := w.light_cache
  let w :=
    if lcache ≠ none ∧
        ¬ EEVEE_lightcache_validate lcache eevee lbake.cube_count lbake.total_irr_samples then
      { w with light_cache := none }
    else w
  match w.light_cache with
  | none =>
    let (created, w) := EEVEE_lightcache_create eevee lbake.cube_count lbake.total_irr_samples w
    { w with light_cache := some created, eval_shares_cache := true }
  | some _ => { w with eval_shares_cache := true }

/-- The function `eevee_lightbake_create_resources`. -/
def eevee_lightbake_create_resources (mode : IrradianceMode) (eevee : SceneEEVEE)
    (lbake : EEVEE_LightBake) (w : World) : Option (EEVEE_LightBake × World) := do
  let lbake := { lbake with bounce_count := eevee.gi_diffuse_bounces }
  let lbake := { lbake with vis_res := float_of_int eevee.gi_visibility_resolution }
  let lbake := { lbake with rt_res := eevee.gi_cubemap_resolution }
  let lbake := { lbake with ref_cube_res := lbake.rt_res }
  let lbake := { lbake with cube_prb := MEM_callocN none lbake.cube_count }
  let lbake := { lbake with grid_prb := MEM_callocN none lbake.grid_count }
  let (rt_depth, w) := w.create
  let lbake := { lbake with rt_depth := rt_depth }
  let (rt_color, w) := w.create
  let lbake := { lbake with rt_color := rt_color }
  let (rt_fb, w) := create_face_framebuffers 6 0 lbake.rt_fb w
  let lbake := { lbake with rt_fb := rt_fb }
  let vis_res ← int_result lbake.vis_res
  let _irr_size ← irradiance_pool_size_get mode vis_res lbake.total_irr_samples
  let (grid_prev, w) := w.create
  let lbake := { lbake with grid_prev := grid_prev }
  pure (lbake, create_resources_light_cache eevee lbake w)

/-- Modelled from the spec: the macro `DRW_TEXTURE_FREE_SAFE` of the draw
manager, which is not part of this file: a handle that is not `NULL` is freed,
and the handle is `NULL` afterwards. -/
def DRW_TEXTURE_FREE_SAFE (_tex : Handle) : Handle := 0

/-- Modelled from the spec: the macro `GPU_FRAMEBUFFER_FREE_SAFE` of the GPU
module, which is not part of this file: a handle that is not `NULL` is freed,
and the handle is `NULL` afterwards. -/
def GPU_FRAMEBUFFER_FREE_SAFE (_fb : Handle) : Handle := 0

/-- The loop of `eevee_lightbake_delete_resources` over the cube faces `i`,
`i + 1`, ... (`faces` of them). -/
def free_face_framebuffers : Nat → Nat → List Handle → List Handle
  | 0, _, rt_fb => rt_fb
  | faces + 1, i, rt_fb =>
    free_face_framebuffers faces (i + 1) (rt_fb.set i (GPU_FRAMEBUFFER_FREE_SAFE (rt_fb.getD i 0)))

/-- The function `eevee_lightbake_delete_resources`. -/
def eevee_lightbake_delete_resources (lbake : EEVEE_LightBake) (w : World) :
    EEVEE_LightBake × World :=
  let w :=
    if lbake.gl_context ≠ 0 then
      (w.call (.DRW_opengl_render_context_enable lbake.gl_context)).call
        (.DRW_gawain_render_context_enable lbake.gwn_context)
    else w.call .DRW_opengl_context_enable
  let lbake := { lbake with rt_depth := DRW_TEXTURE_FREE_SAFE lbake.rt_depth }
  let lbake := { lbake with rt_color := DRW_TEXTURE_FREE_SAFE lbake.rt_color }
  let lbake := { lbake with grid_prev := DRW_TEXTURE_FREE_SAFE lbake.grid_prev }
  let lbake := { lbake with rt_fb := free_face_framebuffers 6 0 lbake.rt_fb }
  if lbake.gl_context ≠ 0 then
    let w := w.call (.DRW_gawain_render_context_disable lbake.gwn_context)
    let w := w.call (.DRW_gawain_render_context_enable lbake.gwn_context)
    let w := w.call (.GWN_context_discard lbake.gwn_context)
    let w := w.call (.DRW_opengl_render_context_disable lbake.gl_context)
    let w := w.call (.WM_opengl_context_dispose lbake.gl_context)
    let lbake := { lbake with gwn_context := 0 }
    let lbake := { lbake with gl_context := 0 }
    (lbake, w)
  else
    (lbake, w.call .DRW_opengl_context_disable)

/-- The function `eevee_lightbake_context_enable`. -/
def eevee_lightbake_context_enable (lbake : EEVEE_LightBake) (w : World) :
    EEVEE_LightBake × World :=
  if lbake.gl_context ≠ 0 then
    let w := w.call (.DRW_opengl_render_context_enable lbake.gl_context)
    let (lbake, w) :=
      if lbake.gwn_context = 0 then
        let (gwn_context, w) := w.create
        ({ lbake with gwn_context := gwn_context }, w.call (.GWN_context_create gwn_context))
      else (lbake, w)
    (lbake, w.call (.DRW_gawain_render_context_enable lbake.gwn_context))
  else
    (lbake, w.call .DRW_opengl_context_enable)

/-- The function `eevee_lightbake_context_disable`. -/
def eevee_lightbake_context_disable (lbake : EEVEE_LightBake) (w : World) : World :=
  if lbake.gl_context ≠ 0 then
    (w.call (.DRW_opengl_render_context_disable lbake.gl_context)).call
      (.DRW_gawain_render_context_disable lbake.gwn_context)
  else
    w.call .DRW_opengl_context_disable

/-- The increment `count++` of one of the two probe counters, a C `int` that
starts at 1 and never decreases and is kept as a natural number. -/
def count_incr (count : Nat) : Option Nat :=
  (int_add (count : Int) 1).map Int.toNat

/-- The body of the loop of `eevee_lightbake_count_probes`.  The sample total
and the two counters are C `int`s: the two products, the sum and the
increments are guarded. -/
def count_probes_step (lbake : EEVEE_LightBake) (ob : Object) : Option EEVEE_LightBake :=
  if ob.type = .OB_LIGHTPROBE then
    let prb := ob.data
    if prb.type = .LIGHTPROBE_TYPE_GRID then do
      let res_xy ← int_mul prb.grid_resolution_x prb.grid_resolution_y
      let res_xyz ← int_mul res_xy prb.grid_resolution_z
      let total_irr_samples ← int_add lbake.total_irr_samples res_xyz
      let lbake := { lbake with total_irr_samples := total_irr_samples }
      let grid_count ← count_incr lbake.grid_count
      pure { lbake with grid_count := grid_count }
    else if prb.type = .LIGHTPROBE_TYPE_CUBE then do
      let cube_count ← count_incr lbake.cube_count
      pure { lbake with cube_count := cube_count }
    else pure lbake
  else pure lbake

/-- The loop of `eevee_lightbake_count_probes` over the objects still to come. -/
def count_probes_loop : List Object → EEVEE_LightBake → Option EEVEE_LightBake
  | [], lbake => some lbake
  | ob :: rest, lbake => (count_probes_step lbake ob).bind (count_probes_loop rest)

/-- The function `eevee_lightbake_count_probes`, over the objects the
dependency graph iterator yields, in its order. -/
def eevee_lightbake_count_probes (objects : List Object) (lbake : EEVEE_LightBake) :
    Option EEVEE_LightBake :=
  let lbake := { lbake with total_irr_samples := 1 }
  let lbake := { lbake with cube_count := 1 }
  let lbake := { lbake with grid_count := 1 }
  count_probes_loop objects lbake

/-- The loop of `eevee_lightbake_gather_probes` over the objects still to come,
with the locals `grid_count` and `cube_count`, the job and the cache
`lbake->scene->eevee.light_cache` points to. -/
def gather_probes_loop : List Object → Nat → Nat → EEVEE_LightBake → Option EEVEE_LightCache →
    Option (EEVEE_LightBake × Option EEVEE_LightCache)
  | [], _, _, lbake, lcache => some (lbake, lcache)
  | ob :: rest, grid_count, cube_count, lbake, lcache =>
    if ob.type = .OB_LIGHTPROBE then
      let prb := ob.data
      if prb.type = .LIGHTPROBE_TYPE_GRID then do
        let grid_prb ← array_store lbake.grid_prb grid_count (some prb)
        let lbake := { lbake with grid_prb := some grid_prb }
        let cache ← lcache
        let grid_data ← array_store cache.grid_data grid_count
          (EEVEE_lightprobes_grid_data_from_object ob)
        gather_probes_loop rest (grid_count + 1) cube_count lbake
          (some { cache with grid_data := some grid_data })
      else if prb.type = .LIGHTPROBE_TYPE_CUBE then do
        let grid_prb ← array_store lbake.grid_prb cube_count (some prb)
        let lbake := { lbake with grid_prb := some grid_prb }
        let cache ← lcache
        let cube_data ← array_store cache.cube_data cube_count
          (EEVEE_lightprobes_cube_data_from_object ob)
        gather_probes_loop rest grid_count (cube_count + 1) lbake
          (some { cache with cube_data := some cube_data })
      else gather_probes_loop rest grid_count cube_count lbake lcache
    else gather_probes_loop rest grid_count cube_count lbake lcache

/-- The function `eevee_lightbake_gather_probes`. -/
def eevee_lightbake_gather_probes (objects : List Object) (lbake : EEVEE_LightBake)
    (w : World) : Option (EEVEE_LightBake × World) := do
  let (lbake, lcache) ← gather_probes_loop objects 1 1 lbake w.light_cache
  pure (lbake, { w with light_cache := lcache })

/-- The function `EEVEE_lightbake_job`.  `LIGHTCACHE_UPDATE_WORLD` is the flag
bit of that name, which the private header declares; `objects` is what the
dependency graph iterator yields once the graph is evaluated. -/
def EEVEE_lightbake_job (mode : IrradianceMode) (LIGHTCACHE_UPDATE_WORLD : Nat)
    (objects : List Object) (eevee : SceneEEVEE) (_stop : Int)
    (lbake : EEVEE_LightBake) (w : World) : Option (EEVEE_LightBake × World) := do
  let lbake ← eevee_lightbake_count_probes objects lbake
  let (lbake, w) := eevee_lightbake_context_enable lbake w
  let (lbake, w) ← eevee_lightbake_create_resources mode eevee lbake w
  let w := eevee_lightbake_context_disable lbake w
  let (lbake, w) ← eevee_lightbake_gather_probes objects lbake w
  let lcache ← w.light_cache
  let (lbake, w) :=
    if lcache.flag &&& LIGHTCACHE_UPDATE_WORLD ≠ 0 then
      let (lbake, w) := eevee_lightbake_context_enable lbake w
      let w := w.call .DRW_custom_pipeline
      let w := { w with do_update := 1 }
      (lbake, eevee_lightbake_context_disable lbake w)
    else (lbake, w)
  pure (eevee_lightbake_delete_resources lbake w)

/-- A bake from start to end: `EEVEE_lightbake_job_data_alloc` followed by
`EEVEE_lightbake_job` on the job it returns. -/
def lightbake_alloc_then_job (mode : IrradianceMode) (LIGHTCACHE_UPDATE_WORLD : Nat)
    (objects : List Object) (eevee : SceneEEVEE) (run_as_job : Bool) (stop : Int)
    (w : World) : Option (EEVEE_LightBake × World) :=
  let (lbake, w) := EEVEE_lightbake_job_data_alloc run_as_job w
  EEVEE_lightbake_job mode LIGHTCACHE_UPDATE_WORLD objects eevee stop lbake w

/-! ## Vocabulary of the statements -/

/-- A light probe object of grid type. -/
def is_grid_probe (ob : Object) : Bool :=
  decide (ob.type = .OB_LIGHTPROBE) && decide (ob.data.type = .LIGHTPROBE_TYPE_GRID)

/-- A light probe object of cube type. -/
def is_cube_probe (ob : Object) : Bool :=
  decide (ob.type = .OB_LIGHTPROBE) && decide (ob.data.type = .LIGHTPROBE_TYPE_CUBE)

/-- The grid probes of a graph, in iteration order. -/
def grid_probes (objects : List Object) : List Object := objects.filter is_grid_probe

/-- The cube probes of a graph, in iteration order. -/
def cube_probes (objects : List Object) : List Object := objects.filter is_cube_probe

/-- The number of irradiance samples of a grid probe. -/
def grid_samples (ob : Object) : Int :=
  ob.data.grid_resolution_x * ob.data.grid_resolution_y * ob.data.grid_resolution_z

/-- A job as `MEM_callocN` leaves it. -/
def zeroed_job : EEVEE_LightBake :=
  { rt_color := 0, rt_depth := 0, rt_fb := List.replicate 6 0, rt_res := 0,
    cube_count := 0, grid_count := 0, total_irr_samples := 0, bounce_count := 0,
    vis_res := 0, grid_prev := 0, grid_prb := none, ref_cube_res := 0, cube_prb := none,
    gl_context := 0, gwn_context := 0 }

/-- A scene that has no light cache yet, before any call was made. -/
def fresh_world : World :=
  { next_handle := 0, trace := [], light_cache := none, eval_shares_cache := false,
    do_update := 0 }

/-- Settings with a visibility resolution of 64 and a cubemap resolution of 512. -/
def sample_settings : SceneEEVEE :=
  { gi_diffuse_bounces := 3, gi_visibility_resolution := 64, gi_cubemap_resolution := 512 }

/-- A grid probe of resolution 4 x 4 x 4. -/
def sample_grid_probe : Object :=
  { type := .OB_LIGHTPROBE,
    data := { id := 1, type := .LIGHTPROBE_TYPE_GRID, grid_resolution_x := 4,
              grid_resolution_y := 4, grid_resolution_z := 4 } }

/-- A grid probe of resolution 16 x 16 x 16. -/
def large_grid_probe : Object :=
  { type := .OB_LIGHTPROBE,
    data := { id := 3, type := .LIGHTPROBE_TYPE_GRID, grid_resolution_x := 16,
              grid_resolution_y := 16, grid_resolution_z := 16 } }

/-- A grid probe of resolution 256 x 256 x 256. -/
def full_grid_probe : Object :=
  { type := .OB_LIGHTPROBE,
    data := { id := 4, type := .LIGHTPROBE_TYPE_GRID, grid_resolution_x := 256,
              grid_resolution_y := 256, grid_resolution_z := 256 } }

/-- A cube probe. -/
def sample_cube_probe : Object :=
  { type := .OB_LIGHTPROBE,
    data := { id := 2, type := .LIGHTPROBE_TYPE_CUBE, grid_resolution_x := 0,
              grid_resolution_y := 0, grid_resolution_z := 0 } }

/-- A cache that already holds two records of each kind, as a bake of a scene
with one probe of each kind needs. -/
def roomy_cache : EEVEE_LightCache :=
  { flag := 0, grid_tx := 1, cube_tx := 2,
    grid_data := some [{ source := none }, { source := none }],
    cube_data := some [{ source := none }, { source := none }] }

/-! ## Vocabulary of the statements: calls and contexts -/

/-- The calls of `EEVEE_lightbake_job`, in order: `gl` and `gwn` are the handles
of the background context and of its companion, `world` tells whether the
world is rendered again. -/
def job_calls (run_as_job : Bool) (gl gwn : Handle) (world : Bool) : List Call :=
  if run_as_job then
    [.DRW_opengl_render_context_enable gl, .GWN_context_create gwn,
      .DRW_gawain_render_context_enable gwn,
      .DRW_opengl_render_context_disable gl, .DRW_gawain_render_context_disable gwn] ++
    (if world then
      [.DRW_opengl_render_context_enable gl, .DRW_gawain_render_context_enable gwn,
        .DRW_custom_pipeline,
        .DRW_opengl_render_context_disable gl, .DRW_gawain_render_context_disable gwn]
    else []) ++
    [.DRW_opengl_render_context_enable gl, .DRW_gawain_render_context_enable gwn,
      .DRW_gawain_render_context_disable gwn, .DRW_gawain_render_context_enable gwn,
      .GWN_context_discard gwn,
      .DRW_opengl_render_context_disable gl, .WM_opengl_context_dispose gl]
  else
    [.DRW_opengl_context_enable, .DRW_opengl_context_disable] ++
    (if world then
      [.DRW_opengl_context_enable, .DRW_custom_pipeline, .DRW_opengl_context_disable]
    else []) ++
    [.DRW_opengl_context_enable, .DRW_opengl_context_disable]

/-- The calls of one bake, `EEVEE_lightbake_job_data_alloc` included. -/
def bake_calls (run_as_job : Bool) (gl gwn : Handle) (world : Bool) : List Call :=
  (if run_as_job then [.WM_opengl_context_create gl] else []) ++
    job_calls run_as_job gl gwn world

/-- The three contexts of a bake: the interactive one, a background GL
context and a gawain context, the last two named by their handle. -/
inductive Context where
  | interactive
  | background (gl : Handle)
  | gawain (gwn : Handle)
  deriving DecidableEq, Repr

/-- What a call does to a context. -/
inductive ContextCall where
  | enable
  | disable
  | destroy
  deriving DecidableEq, Repr

/-- What a call does to the given context, if anything. -/
def context_call : Context → Call → Option ContextCall
  | .interactive, .DRW_opengl_context_enable => some .enable
  | .interactive, .DRW_opengl_context_disable => some .disable
  | .background gl, .DRW_opengl_render_context_enable h => if h = gl then some .enable else none
  | .background gl, .DRW_opengl_render_context_disable h => if h = gl then some .disable else none
  | .background gl, .WM_opengl_context_dispose h => if h = gl then some .destroy else none
  | .gawain gwn, .DRW_gawain_render_context_enable h => if h = gwn then some .enable else none
  | .gawain gwn, .DRW_gawain_render_context_disable h => if h = gwn then some .disable else none
  | .gawain gwn, .GWN_context_discard h => if h = gwn then some .destroy else none
  | _, _ => none

/-- The calls of a trace that concern the given context, in order. -/
def context_calls (c : Context) (trace : List Call) : List ContextCall :=
  trace.filterMap (context_call c)

/-- The enable and disable calls of a trace for the given context, in order. -/
def enable_disable_calls (c : Context) (trace : List Call) : List ContextCall :=
  (context_calls c trace).filter (fun e => decide (e ≠ .destroy))

/-- The calls strictly alternate enable, disable, ..., starting with an enable
and ending with a disable. -/
def strictly_paired : List ContextCall → Bool
  | [] => true
  | .enable :: .disable :: rest => strictly_paired rest
  | _ => false

/-- The calls are enable / disable pairs followed by an enable and the
destruction of the context while it is enabled. -/
def paired_then_destroyed_enabled : List ContextCall → Bool
  | [.enable, .destroy] => true
  | .enable :: .disable :: rest => paired_then_destroyed_enabled rest
  | _ => false

/-- The calls are enable / disable pairs, followed by the destruction of the
context if it is destroyed at all. -/
def paired_then_destroyed_disabled : List ContextCall → Bool
  | [] => true
  | [.destroy] => true
  | .enable :: .disable :: rest => paired_then_destroyed_disabled rest
  | _ => false

def is_WM_opengl_context_create : Call → Bool
  | .WM_opengl_context_create _ => true
  | _ => false

def is_GWN_context_create : Call → Bool
  | .GWN_context_create _ => true
  | _ => false

def is_WM_opengl_context_dispose : Call → Bool
  | .WM_opengl_context_dispose _ => true
  | _ => false

def is_GWN_context_discard : Call → Bool
  | .GWN_context_discard _ => true
  | _ => false

/-! ## binary32 lemmas -/

theorem f32_excess_zero (fuel n : Nat) (h : n < 2 ^ 24) : f32_excess fuel n = 0 := by
  cases fuel with
  | zero => rfl
  | succ k => unfold f32_excess; rw [if_pos h]

theorem f32_of_nat_exact (n : Nat) (h : n < 2 ^ 24) : f32_of_nat n = n := by
  unfold f32_of_nat
  rw [f32_excess_zero _ _ h]
  simp [Nat.mod_one]

theorem f32_excess_spec (fuel y : Nat) :
    (f32_excess fuel y = 0 ∨ 2 ^ 23 ≤ y / 2 ^ f32_excess fuel y) ∧ f32_excess fuel y ≤ fuel := by
  induction fuel generalizing y with
  | zero => simp [f32_excess]
  | succ n ih =>
    unfold f32_excess
    split
    · simp
    · rename_i hy
      obtain ⟨h1, h2⟩ := ih (y / 2)
      refine ⟨Or.inr ?_, by omega⟩
      have e : y / 2 ^ (f32_excess n (y / 2) + 1) = y / 2 / 2 ^ f32_excess n (y / 2) := by
        rw [Nat.div_div_eq_div_mul, ← pow_succ']
      rw [e]
      rcases h1 with h1 | h1
      · rw [h1]
        have : (2:Nat) ^ 24 = 2 * 2 ^ 23 := by norm_num
        rw [pow_zero, Nat.div_one]
        omega
      · exact h1

theorem ceilf_between (s n : Nat) (h1 : n * 2 ^ 64 < s) (h2 : s ≤ (n + 1) * 2 ^ 64) :
    ceilf s = n + 1 := by
  unfold ceilf
  norm_num at h1 h2 ⊢
  omega

theorem ceilf_integer (n : Nat) : ceilf (n * 2 ^ 64) = n := by
  unfold ceilf
  norm_num
  omega

theorem ceil_div_cases (p q : Nat) (hq : 0 < q) :
    (p + q - 1) / q = if p % q = 0 then p / q else p / q + 1 := by
  have hpq : q * (p / q) + p % q = p := Nat.div_add_mod p q
  have hr : p % q < q := Nat.mod_lt _ hq
  split
  · rename_i h0
    rw [h0, Nat.add_zero] at hpq
    apply Nat.div_eq_of_lt_le
    · rw [Nat.mul_comm]; omega
    · rw [Nat.succ_mul, Nat.mul_comm]; omega
  · rename_i h0
    apply Nat.div_eq_of_lt_le
    · rw [Nat.add_mul, Nat.mul_comm]; omega
    · rw [Nat.succ_mul, Nat.add_mul, Nat.mul_comm]; omega

theorem f32_div_exact (p q : Nat) (hp : p < 2 ^ 24) (hq : 0 < q) (hq2 : q < 2 ^ 24) :
    ceilf (f32_div p q) = (p + q - 1) / q := by
  rw [ceil_div_cases p q hq]
  have hpq : q * (p / q) + p % q = p := Nat.div_add_mod p q
  have hrq : p % q < q := Nat.mod_lt _ hq
  generalize hn : p / q = n at hpq ⊢
  generalize hr : p % q = r at hpq hrq ⊢
  unfold f32_div
  dsimp only
  obtain ⟨hk1, -⟩ := f32_excess_spec 128 (p * 2 ^ 64 / q)
  generalize hk : f32_excess 128 (p * 2 ^ 64 / q) = k at hk1 ⊢
  have hT : (0:Nat) < 2 ^ 64 := by positivity
  generalize hTdef : (2:Nat) ^ 64 = T at hT hk1 ⊢
  have hu : 0 < 2 ^ k := by positivity
  -- the exact quotient lies between n and n + 1
  have hA : n * T ≤ p * T / q := by
    rw [Nat.le_div_iff_mul_le hq]
    have : n * T * q = (q * n) * T := by ring
    rw [this]
    exact Nat.mul_le_mul_right _ (by omega)
  have hB : p * T / q < (n + 1) * T := by
    rw [Nat.div_lt_iff_lt_mul hq]
    have : (n + 1) * T * q = (q * n + q) * T := by ring
    rw [this]
    exact Nat.mul_lt_mul_of_pos_right (by omega) hT
  have hYq : p * T / q * q ≤ p * T := Nat.div_mul_le_self _ _
  have hn24 : n < 2 ^ 24 := by
    have : n ≤ p := by rw [← hn]; exact Nat.div_le_self _ _
    omega
  -- the unit in the last place divides 2 ^ 64
  have hk64 : k ≤ 64 := by
    rcases hk1 with hk1 | hk1
    · omega
    · by_contra hcon
      have h65 : 2 ^ 65 ≤ 2 ^ k := Nat.pow_le_pow_right (by norm_num) (by omega)
      have h1 : 2 ^ 23 * 2 ^ k ≤ p * T / q := by
        have := Nat.div_mul_le_self (p * T / q) (2 ^ k)
        calc 2 ^ 23 * 2 ^ k ≤ p * T / q / 2 ^ k * 2 ^ k := Nat.mul_le_mul_right _ hk1
          _ ≤ p * T / q := this
      have h2 : (n + 1) * T ≤ 2 ^ 24 * T := Nat.mul_le_mul_right _ (by omega)
      have h3 : 2 ^ 23 * 2 ^ 65 ≤ 2 ^ 23 * 2 ^ k := Nat.mul_le_mul_left _ h65
      rw [← hTdef] at h2 hB h1
      norm_num at h2 h3
      omega
  obtain ⟨c, hc⟩ : ∃ c, T = 2 ^ k * c := ⟨2 ^ (64 - k), by
    rw [← hTdef, ← pow_add]; congr 1; omega⟩
  have hE : n * c ≤ p * T / q / 2 ^ k := by
    rw [Nat.le_div_iff_mul_le hu]
    calc n * c * 2 ^ k = n * T := by rw [hc]; ring
      _ ≤ _ := hA
  have hF : p * T / q / 2 ^ k < (n + 1) * c := by
    rw [Nat.div_lt_iff_lt_mul hu]
    calc p * T / q < (n + 1) * T := hB
      _ = (n + 1) * c * 2 ^ k := by rw [hc]; ring
  generalize hm : p * T / q / 2 ^ k = m at hE hF hk1 ⊢
  have hmu : m * 2 ^ k ≤ p * T / q := by rw [← hm]; exact Nat.div_mul_le_self _ _
  have hup : (m + 1) * 2 ^ k ≤ (n + 1) * T := by
    calc (m + 1) * 2 ^ k ≤ (n + 1) * c * 2 ^ k := Nat.mul_le_mul_right _ hF
      _ = (n + 1) * T := by rw [hc]; ring
  have hlo : n * T ≤ m * 2 ^ k := by
    calc n * T = n * c * 2 ^ k := by rw [hc]; ring
      _ ≤ m * 2 ^ k := Nat.mul_le_mul_right _ hE
  by_cases hr0 : r = 0
  · -- the quotient is an integer: nothing is rounded
    rw [if_pos hr0]
    subst hr0
    have hp' : p = q * n := by omega
    have hm' : m * 2 ^ k = n * T := by
      have : p * T / q = n * T := by
        rw [hp', Nat.mul_assoc, Nat.mul_div_cancel_left _ hq]
      omega
    have hrem : p * T - m * 2 ^ k * q = 0 := by
      rw [hm', hp']
      have : q * n * T = n * T * q := by ring
      omega
    have hpos : 0 < 2 ^ k * q := Nat.mul_pos hu hq
    rw [hrem, if_neg (by omega), hm', ← hTdef]
    exact ceilf_integer n
  · rw [if_neg hr0]
    have hgoal : ∀ s, n * T < s → s ≤ (n + 1) * T → ceilf s = n + 1 := by
      intro s h1 h2
      rw [← hTdef] at h1 h2
      exact ceilf_between s n h1 h2
    by_cases hmc : m * 2 ^ k = n * T
    · -- the truncated significand is the integer below: the rest rounds up
      have hrem : p * T - m * 2 ^ k * q = r * T := by
        rw [hmc, ← hpq]
        have : (q * n + r) * T = n * T * q + r * T := by ring
        omega
      have hsmall : 2 ^ k * q < 2 * T := by
        rcases hk1 with hk1 | hk1
        · rw [hk1, ← hTdef]
          norm_num at hq2 ⊢
          omega
        · have h1 : 2 ^ 23 * (2 ^ k * q) ≤ p * T := by
            calc 2 ^ 23 * (2 ^ k * q) = 2 ^ 23 * 2 ^ k * q := by ring
              _ ≤ m * 2 ^ k * q :=
                Nat.mul_le_mul_right _ (Nat.mul_le_mul_right _ hk1)
              _ ≤ p * T / q * q := Nat.mul_le_mul_right _ hmu
              _ ≤ p * T := hYq
          have h2 : p * T < 2 ^ 24 * T := Nat.mul_lt_mul_of_pos_right hp hT
          norm_num at h1 h2
          omega
      have hcond : 2 ^ k * q < 2 * (p * T - m * 2 ^ k * q) := by
        rw [hrem]
        have : 1 * T ≤ r * T := Nat.mul_le_mul_right _ (by omega)
        omega
      rw [if_pos (Or.inl hcond)]
      apply hgoal _ _ hup
      rw [Nat.add_mul]
      omega
    · have hlt : n * T < m * 2 ^ k := lt_of_le_of_ne hlo (Ne.symm hmc)
      split
      · apply hgoal _ _ hup
        rw [Nat.add_mul]
        omega
      · apply hgoal _ hlt
        have : m * 2 ^ k ≤ (m + 1) * 2 ^ k := Nat.mul_le_mul_right _ (by omega)
        omega

/-! ## Irradiance pool sizing: properties -/

theorem int_result_some (x : Int) (h1 : INT_MIN ≤ x) (h2 : x ≤ INT_MAX) :
    int_result x = some x := by
  simp [int_result, h1, h2]

theorem int_result_eq_some {x y : Int} (h : int_result x = some y) :
    y = x ∧ INT_MIN ≤ x ∧ x ≤ INT_MAX := by
  unfold int_result at h
  split at h
  · rename_i hx
    simp only [Option.some.injEq] at h
    exact ⟨h.symm, hx.1, hx.2⟩
  · simp at h

theorem sample_size_pos (mode : IrradianceMode) :
    0 < IRRADIANCE_SAMPLE_SIZE_X mode ∧ 0 < IRRADIANCE_SAMPLE_SIZE_Y mode := by
  cases mode <;> simp [IRRADIANCE_SAMPLE_SIZE_X, IRRADIANCE_SAMPLE_SIZE_Y]

theorem irr_per_vis_bounds (mode : IrradianceMode) (R : Int) (hR1 : 1 ≤ R) (hR2 : R ≤ 1024) :
    0 ≤ irr_per_vis mode R ∧ irr_per_vis mode R ≤ 1024 * 1024 ∧
    0 ≤ Int.tdiv R (IRRADIANCE_SAMPLE_SIZE_X mode) ∧
    Int.tdiv R (IRRADIANCE_SAMPLE_SIZE_X mode) ≤ 1024 ∧
    0 ≤ Int.tdiv R (IRRADIANCE_SAMPLE_SIZE_Y mode) ∧
    Int.tdiv R (IRRADIANCE_SAMPLE_SIZE_Y mode) ≤ 1024 := by
  obtain ⟨hx, hy⟩ := sample_size_pos mode
  have ha0 := @Int.tdiv_nonneg R (IRRADIANCE_SAMPLE_SIZE_X mode) (by omega) (by omega)
  have hb0 := @Int.tdiv_nonneg R (IRRADIANCE_SAMPLE_SIZE_Y mode) (by omega) (by omega)
  have ha1 : Int.tdiv R (IRRADIANCE_SAMPLE_SIZE_X mode) ≤ 1024 := by
    rw [Int.tdiv_eq_ediv (by omega) (by omega)]
    exact le_trans (Int.ediv_le_self _ (by omega)) hR2
  have hb1 : Int.tdiv R (IRRADIANCE_SAMPLE_SIZE_Y mode) ≤ 1024 := by
    rw [Int.tdiv_eq_ediv (by omega) (by omega)]
    exact le_trans (Int.ediv_le_self _ (by omega)) hR2
  refine ⟨?_, ?_, ha0, ha1, hb0, hb1⟩
  · exact Int.mul_nonneg ha0 hb0
  · unfold irr_per_vis
    exact Int.mul_le_mul ha1 hb1 hb0 (by norm_num)

theorem layer_count_bounds (x : Int) (hx : 0 ≤ x) :
    1 ≤ MIN2 (x + 1) IRRADIANCE_MAX_POOL_LAYER ∧
    MIN2 (x + 1) IRRADIANCE_MAX_POOL_LAYER ≤ 256 ∧
    (1 ≤ x → 2 ≤ MIN2 (x + 1) IRRADIANCE_MAX_POOL_LAYER) := by
  unfold MIN2 IRRADIANCE_MAX_POOL_LAYER
  split <;> omega

theorem cols_bounds (R : Int) (hR1 : 1 ≤ R) (hR2 : R ≤ 1024) :
    Int.tdiv IRRADIANCE_MAX_POOL_SIZE R = 1024 / R ∧ 1 ≤ 1024 / R ∧ 1024 / R ≤ 1024 ∧
    R * (1024 / R) ≤ 1024 := by
  refine ⟨Int.tdiv_eq_ediv (by decide) (by omega), ?_, ?_, ?_⟩
  · exact Int.le_ediv_of_mul_le (by omega) (by omega)
  · exact Int.ediv_le_self _ (by norm_num)
  · exact Int.mul_ediv_self_le (by omega)

/-- The steps of `irradiance_pool_size_get` up to the layer count, for a
resolution between 1 and 1024. -/
theorem pool_size_layers (mode : IrradianceMode) (R N : Int) (hR1 : 1 ≤ R) (hR2 : R ≤ 1024) :
    irradiance_pool_size_get mode R N =
      (int_ceilf_div N (MIN2 (irr_per_vis mode R + 1) IRRADIANCE_MAX_POOL_LAYER - 1)).bind
        (fun texel_ct =>
        (int_mul R (max_ii 1 (min_ii texel_ct (1024 / R)))).bind (fun r_size0 =>
          (int_div texel_ct (1024 / R)).bind (fun rows =>
            (int_mul R (max_ii 1 rows)).bind (fun r_size1 =>
              some (r_size0, r_size1,
                MIN2 (irr_per_vis mode R + 1) IRRADIANCE_MAX_POOL_LAYER))))) := by
  obtain ⟨hx, hy⟩ := sample_size_pos mode
  obtain ⟨hi0, hi1, ha0, ha1, hb0, hb1⟩ := irr_per_vis_bounds mode R hR1 hR2
  obtain ⟨hl0, hl1, -⟩ := layer_count_bounds (irr_per_vis mode R) hi0
  obtain ⟨hc, hc1, hc2, -⟩ := cols_bounds R hR1 hR2
  have e1 : int_div R (IRRADIANCE_SAMPLE_SIZE_X mode)
      = some (Int.tdiv R (IRRADIANCE_SAMPLE_SIZE_X mode)) := by
    unfold int_div
    rw [if_neg (by omega)]
    exact int_result_some _ (by unfold INT_MIN; omega) (by unfold INT_MAX; omega)
  have e2 : int_div R (IRRADIANCE_SAMPLE_SIZE_Y mode)
      = some (Int.tdiv R (IRRADIANCE_SAMPLE_SIZE_Y mode)) := by
    unfold int_div
    rw [if_neg (by omega)]
    exact int_result_some _ (by unfold INT_MIN; omega) (by unfold INT_MAX; omega)
  have e3 : int_mul (Int.tdiv R (IRRADIANCE_SAMPLE_SIZE_X mode))
      (Int.tdiv R (IRRADIANCE_SAMPLE_SIZE_Y mode)) = some (irr_per_vis mode R) :=
    int_result_some _ (by unfold INT_MIN; unfold irr_per_vis at hi0; omega)
      (by unfold INT_MAX; unfold irr_per_vis at hi1; omega)
  have e4 : int_add (irr_per_vis mode R) 1 = some (irr_per_vis mode R + 1) :=
    int_result_some _ (by unfold INT_MIN; omega) (by unfold INT_MAX; omega)
  have e5 : int_sub (MIN2 (irr_per_vis mode R + 1) IRRADIANCE_MAX_POOL_LAYER) 1
      = some (MIN2 (irr_per_vis mode R + 1) IRRADIANCE_MAX_POOL_LAYER - 1) :=
    int_result_some _ (by unfold INT_MIN; omega) (by unfold INT_MAX; omega)
  have e6 : int_div IRRADIANCE_MAX_POOL_SIZE R = some (1024 / R) := by
    unfold int_div
    rw [if_neg (by omega), hc]
    exact int_result_some _ (by unfold INT_MIN; omega) (by unfold INT_MAX; omega)
  unfold irradiance_pool_size_get
  simp only [Option.bind_eq_bind, Option.pure_def, e1, e2, e3, e4, e5, e6, Option.some_bind]

/-- Below `2 ^ 24` the float arithmetic of the texel count is exact: the
result is the count divided by the divisor, rounded up. -/
theorem int_ceilf_div_exact (N d : Int) (hN0 : 0 ≤ N) (hN1 : N < 2 ^ 24) (hd0 : 1 ≤ d)
    (hd1 : d < 2 ^ 24) :
    int_ceilf_div N d = some ((N + d - 1) / d) := by
  obtain ⟨p, rfl⟩ := Int.eq_ofNat_of_zero_le hN0
  obtain ⟨q, rfl⟩ := Int.eq_ofNat_of_zero_le (by omega : 0 ≤ d)
  have hp : p < 2 ^ 24 := by exact_mod_cast hN1
  have hq : q < 2 ^ 24 := by exact_mod_cast hd1
  have hq0 : 0 < q := by omega
  unfold int_ceilf_div
  rw [if_neg (by omega), if_pos (Or.inl ⟨hN0, by omega⟩)]
  simp only [Int.natAbs_ofNat]
  rw [f32_of_nat_exact p hp, f32_of_nat_exact q hq, f32_div_exact p q hp hq0 hq]
  have hle : (p + q - 1) / q ≤ p := by
    have : (p + q - 1) / q < p + 1 := by
      rw [Nat.div_lt_iff_lt_mul hq0, Nat.add_mul]
      have : p * 1 ≤ p * q := Nat.mul_le_mul_left _ hq0
      omega
    omega
  have hcast : (((p + q - 1) / q : Nat) : Int) = ((p : Int) + (q : Int) - 1) / (q : Int) := by
    rw [Int.ofNat_ediv]
    congr 1
    omega
  rw [← hcast]
  have h0 : (0 : Int) ≤ (((p + q - 1) / q : Nat) : Int) := Int.ofNat_nonneg _
  have h1 : (((p + q - 1) / q : Nat) : Int) ≤ (p : Int) := by exact_mod_cast hle
  generalize (((p + q - 1) / q : Nat) : Int) = t at h0 h1 ⊢
  apply int_result_some
  · unfold INT_MIN; omega
  · unfold INT_MAX
    norm_num at hN1
    omega

theorem ceil_div_le (N d : Int) (hN0 : 0 ≤ N) (hd0 : 1 ≤ d) :
    0 ≤ (N + d - 1) / d ∧ (N + d - 1) / d ≤ N := by
  constructor
  · exact Int.ediv_nonneg (by omega) (by omega)
  · have h : (N + d - 1) / d < N + 1 := by
      apply Int.ediv_lt_of_lt_mul (by omega)
      have : N * 1 ≤ N * d := Int.mul_le_mul_of_nonneg_left hd0 hN0
      rw [Int.add_mul]
      omega
    omega

theorem max_min_bounds (t c : Int) (hc : 1 ≤ c) :
    1 ≤ max_ii 1 (min_ii t c) ∧ max_ii 1 (min_ii t c) ≤ c := by
  unfold max_ii min_ii
  split <;> split <;> omega

theorem max_one_bounds (x : Int) : 1 ≤ max_ii 1 x ∧ (max_ii 1 x = 1 ∨ max_ii 1 x = x) := by
  unfold max_ii
  split <;> omega

/-- The value of `irradiance_pool_size_get` where the float arithmetic is exact
and the height fits an `int`: steps 1 to 5 of the sizer. -/
theorem pool_size_value (mode : IrradianceMode) (R N : Int) (hR1 : 1 ≤ R) (hR2 : R ≤ 1024)
    (hs : 1 ≤ irr_per_vis mode R) (hN0 : 0 ≤ N) (hN1 : N < 2 ^ 24) (hRN : R * N ≤ INT_MAX) :
    irradiance_pool_size_get mode R N =
      some (R * max_ii 1 (min_ii ((N + (MIN2 (irr_per_vis mode R + 1)
                IRRADIANCE_MAX_POOL_LAYER - 1) - 1) /
              (MIN2 (irr_per_vis mode R + 1) IRRADIANCE_MAX_POOL_LAYER - 1)) (1024 / R)),
            R * max_ii 1 (((N + (MIN2 (irr_per_vis mode R + 1)
                IRRADIANCE_MAX_POOL_LAYER - 1) - 1) /
              (MIN2 (irr_per_vis mode R + 1) IRRADIANCE_MAX_POOL_LAYER - 1)) / (1024 / R)),
            MIN2 (irr_per_vis mode R + 1) IRRADIANCE_MAX_POOL_LAYER) := by
  obtain ⟨hi0, -⟩ := irr_per_vis_bounds mode R hR1 hR2
  obtain ⟨-, hl1, hl2⟩ := layer_count_bounds (irr_per_vis mode R) hi0
  have hl2 := hl2 hs
  obtain ⟨-, hc1, hc2, hc3⟩ := cols_bounds R hR1 hR2
  rw [pool_size_layers mode R N hR1 hR2]
  generalize MIN2 (irr_per_vis mode R + 1) IRRADIANCE_MAX_POOL_LAYER = l at hl1 hl2 ⊢
  rw [int_ceilf_div_exact N (l - 1) hN0 hN1 (by omega) (by norm_num; omega)]
  obtain ⟨ht0, ht1⟩ := ceil_div_le N (l - 1) hN0 (by omega)
  generalize (N + (l - 1) - 1) / (l - 1) = t at ht0 ht1 ⊢
  obtain ⟨hm0, hm1⟩ := max_min_bounds t (1024 / R) hc1
  have hRN' : R * 1 ≤ INT_MAX := by
    unfold INT_MAX; omega
  have e1 : int_mul R (max_ii 1 (min_ii t (1024 / R)))
      = some (R * max_ii 1 (min_ii t (1024 / R))) := by
    apply int_result_some
    · have : 0 ≤ R * max_ii 1 (min_ii t (1024 / R)) := Int.mul_nonneg (by omega) (by omega)
      unfold INT_MIN; omega
    · have : R * max_ii 1 (min_ii t (1024 / R)) ≤ R * (1024 / R) :=
        Int.mul_le_mul_of_nonneg_left hm1 (by omega)
      unfold INT_MAX; omega
  have hq0 : 0 ≤ t / (1024 / R) := Int.ediv_nonneg ht0 (by omega)
  have hq1 : t / (1024 / R) ≤ t := Int.ediv_le_self _ ht0
  have e2 : int_div t (1024 / R) = some (t / (1024 / R)) := by
    unfold int_div
    rw [if_neg (by omega), Int.tdiv_eq_ediv ht0 (by omega)]
    apply int_result_some
    · unfold INT_MIN; omega
    · unfold INT_MAX; norm_num at hN1; omega
  have e3 : int_mul R (max_ii 1 (t / (1024 / R))) = some (R * max_ii 1 (t / (1024 / R))) := by
    obtain ⟨hx0, hx1⟩ := max_one_bounds (t / (1024 / R))
    apply int_result_some
    · have : 0 ≤ R * max_ii 1 (t / (1024 / R)) := Int.mul_nonneg (by omega) (by omega)
      unfold INT_MIN; omega
    · rcases hx1 with hx1 | hx1
      · rw [hx1]; exact hRN'
      · rw [hx1]
        have : R * (t / (1024 / R)) ≤ R * N :=
          Int.mul_le_mul_of_nonneg_left (by omega) (by omega)
        omega
  simp only [Option.some_bind, e1, e2, e3]

/-- Where the sizer of a resolution `R` with `1 ≤ R ≤ IRRADIANCE_MAX_POOL_SIZE`
that holds at least one irradiance sample returns a size, the width is a
positive multiple of `R` that is at most `IRRADIANCE_MAX_POOL_SIZE`, the height
is a positive multiple of `R`, and the layer count is between 2 and
`IRRADIANCE_MAX_POOL_LAYER`; it returns a size when `N < 2 ^ 24` and `R * N`
fits an `int`. -/
theorem pool_size_width_layers (mode : IrradianceMode) (R N : Int) (hR1 : 1 ≤ R)
    (hR2 : R ≤ IRRADIANCE_MAX_POOL_SIZE) (hs : 1 ≤ irr_per_vis mode R) (hN0 : 0 ≤ N) :
    (∀ w h l, irradiance_pool_size_get mode R N = some (w, h, l) →
      0 < w ∧ w ≤ IRRADIANCE_MAX_POOL_SIZE ∧ R ∣ w ∧ 0 < h ∧ R ∣ h ∧
      2 ≤ l ∧ l ≤ IRRADIANCE_MAX_POOL_LAYER) ∧
    (N < 2 ^ 24 → R * N ≤ INT_MAX →
      ∃ w h l, irradiance_pool_size_get mode R N = some (w, h, l)) := by
  have hR2' : R ≤ 1024 := hR2
  constructor
  · intro w h l hsome
    obtain ⟨hi0, -⟩ := irr_per_vis_bounds mode R hR1 hR2'
    obtain ⟨-, hl1, hl2⟩ := layer_count_bounds (irr_per_vis mode R) hi0
    obtain ⟨-, hc1, hc2, hc3⟩ := cols_bounds R hR1 hR2'
    rw [pool_size_layers mode R N hR1 hR2'] at hsome
    simp only [Option.bind_eq_some, Option.some.injEq, Prod.mk.injEq] at hsome
    obtain ⟨t, -, w', hw', rows, -, h', hh', rfl, rfl, rfl⟩ := hsome
    obtain ⟨rfl, -, -⟩ := int_result_eq_some hw'
    obtain ⟨rfl, -, -⟩ := int_result_eq_some hh'
    obtain ⟨hm0, hm1⟩ := max_min_bounds t (1024 / R) hc1
    obtain ⟨hx0, -⟩ := max_one_bounds rows
    refine ⟨Int.mul_pos (by omega) (by omega), ?_, Dvd.intro _ rfl,
      Int.mul_pos (by omega) (by omega), Dvd.intro _ rfl, hl2 hs, hl1⟩
    have : R * max_ii 1 (min_ii t (1024 / R)) ≤ R * (1024 / R) :=
      Int.mul_le_mul_of_nonneg_left hm1 (by omega)
    unfold IRRADIANCE_MAX_POOL_SIZE
    omega
  · intro hN1 hRN
    exact ⟨_, _, _, pool_size_value mode R N hR1 hR2' hs hN0 hN1 hRN⟩

/-- C1: with a visibility resolution of 64 and 130560 samples
`irradiance_pool_size_get` returns 1024 x 2048 x 256: the width is clamped to
`IRRADIANCE_MAX_POOL_SIZE`, the layer count to `IRRADIANCE_MAX_POOL_LAYER`, and
the height is twice `IRRADIANCE_MAX_POOL_SIZE`.  The height is at the limit
with 69105 samples and passes it with 69106. -/
theorem pool_size_height_unbounded :
    irradiance_pool_size_get .IRRADIANCE_SH_L2 64 130560 = some (1024, 2048, 256) ∧
    IRRADIANCE_MAX_POOL_SIZE < 2048 ∧
    irradiance_pool_size_get .IRRADIANCE_SH_L2 64 69105 = some (1024, 1024, 256) ∧
    irradiance_pool_size_get .IRRADIANCE_SH_L2 64 69106 = some (1024, 1088, 256) := by
  decide

/-- C9, as stated, fails: with a visibility resolution of 8, which holds 4
irradiance samples, no sample gives 5 layers, not 2; with a resolution of 2048
the sizer divides by zero. -/
theorem pool_size_zero_samples_layers :
    irr_per_vis .IRRADIANCE_SH_L2 8 = 4 ∧
    irradiance_pool_size_get .IRRADIANCE_SH_L2 8 0 = some (8, 8, 5) ∧
    1 ≤ irr_per_vis .IRRADIANCE_SH_L2 2048 ∧
    irradiance_pool_size_get .IRRADIANCE_SH_L2 2048 0 = none := by
  decide

/-- C9, amended: for every encoding and every visibility resolution `R` with
`1 ≤ R ≤ IRRADIANCE_MAX_POOL_SIZE` that holds `irr_per_vis ≥ 1` irradiance
samples, `irradiance_pool_size_get(R, 0)` returns a single column and row
(width `R`, height `R`) and `min(irr_per_vis + 1, IRRADIANCE_MAX_POOL_LAYER)`
layers, which is at least 2, and is 2 exactly when `irr_per_vis = 1`. -/
theorem pool_size_zero_samples (mode : IrradianceMode) (R : Int) (hR1 : 1 ≤ R)
    (hR2 : R ≤ IRRADIANCE_MAX_POOL_SIZE) (hs : 1 ≤ irr_per_vis mode R) :
    irradiance_pool_size_get mode R 0
      = some (R, R, MIN2 (irr_per_vis mode R + 1) IRRADIANCE_MAX_POOL_LAYER) ∧
    2 ≤ MIN2 (irr_per_vis mode R + 1) IRRADIANCE_MAX_POOL_LAYER ∧
    (MIN2 (irr_per_vis mode R + 1) IRRADIANCE_MAX_POOL_LAYER = 2 ↔ irr_per_vis mode R = 1) := by
  have hR2' : R ≤ 1024 := hR2
  obtain ⟨hi0, -⟩ := irr_per_vis_bounds mode R hR1 hR2'
  obtain ⟨-, hl1, hl2⟩ := layer_count_bounds (irr_per_vis mode R) hi0
  have hl2 := hl2 hs
  obtain ⟨-, hc1, -, -⟩ := cols_bounds R hR1 hR2'
  refine ⟨?_, hl2, ?_⟩
  · rw [pool_size_value mode R 0 hR1 hR2' hs (le_refl 0) (by norm_num)
      (by unfold INT_MAX; omega)]
    generalize MIN2 (irr_per_vis mode R + 1) IRRADIANCE_MAX_POOL_LAYER = l at hl1 hl2 ⊢
    have ht : (0 + (l - 1) - 1) / (l - 1) = 0 :=
      Int.ediv_eq_zero_of_lt (by omega) (by omega)
    rw [ht]
    have hw : max_ii 1 (min_ii 0 (1024 / R)) = 1 := by
      unfold max_ii min_ii
      split <;> split <;> omega
    have hh : max_ii 1 (0 / (1024 / R)) = 1 := by
      rw [Int.zero_ediv]
      rfl
    rw [hw, hh, Int.mul_one]
  · unfold MIN2 IRRADIANCE_MAX_POOL_LAYER
    split <;> omega

/-- The minimum packing at a visibility resolution of 64. -/
theorem pool_size_zero_samples_witness :
    irradiance_pool_size_get .IRRADIANCE_SH_L2 64 0
      = some (64, 64, MIN2 (irr_per_vis .IRRADIANCE_SH_L2 64 + 1) IRRADIANCE_MAX_POOL_LAYER) ∧
    2 ≤ MIN2 (irr_per_vis .IRRADIANCE_SH_L2 64 + 1) IRRADIANCE_MAX_POOL_LAYER ∧
    (MIN2 (irr_per_vis .IRRADIANCE_SH_L2 64 + 1) IRRADIANCE_MAX_POOL_LAYER = 2 ↔
      irr_per_vis .IRRADIANCE_SH_L2 64 = 1) :=
  pool_size_zero_samples .IRRADIANCE_SH_L2 64 (by decide) (by decide) (by decide)

/-- C10: with a visibility resolution of 64 (256 irradiance samples per
visibility sample, hence 255 samples per cell) and the 4097 samples of a scene
with one 16 x 16 x 16 grid probe, 17 cells are needed and 17 is below
(1024 / 64) squared, yet the atlas returned is 1024 by 64 with 256 layers:
16 cells, room for 4080 samples. -/
theorem pool_size_too_small :
    (eevee_lightbake_count_probes [large_grid_probe] zeroed_job).map
      (fun r => r.total_irr_samples) = some 4097 ∧
    irr_per_vis .IRRADIANCE_SH_L2 64 = 256 ∧
    ∃ w h l, irradiance_pool_size_get .IRRADIANCE_SH_L2 64 4097 = some (w, h, l) ∧
      (w, h, l) = (1024, 64, 256) ∧
      ((4097 : Int) + (l - 1) - 1) / (l - 1) = 17 ∧
      (17 : Int) ≤ (1024 / 64) * (1024 / 64) ∧
      (w / 64) * (h / 64) = 16 ∧
      (w / 64) * (h / 64) * (l - 1) = 4080 := by
  refine ⟨by decide, by decide, 1024, 64, 256, ?_⟩
  decide

/-! ## Probe inventory: properties -/

theorem count_incr_some {count r : Nat} (h : count_incr count = some r) :
    r = count + 1 ∧ (count : Int) + 1 ≤ INT_MAX := by
  unfold count_incr int_add at h
  simp only [Option.map_eq_some'] at h
  obtain ⟨x, hx, hr⟩ := h
  obtain ⟨rfl, -, hmax⟩ := int_result_eq_some hx
  exact ⟨by omega, hmax⟩

theorem count_incr_returns (count : Nat) (h : (count : Int) + 1 ≤ INT_MAX) :
    count_incr count = some (count + 1) := by
  unfold count_incr int_add
  rw [int_result_some _ (by unfold INT_MIN; omega) h]
  simp only [Option.map_some', Option.some.injEq]
  omega

theorem probes_cons (ob : Object) (rest : List Object) :
    grid_probes (ob :: rest) = grid_probes [ob] ++ grid_probes rest ∧
    cube_probes (ob :: rest) = cube_probes [ob] ++ cube_probes rest := by
  unfold grid_probes cube_probes
  constructor <;> rw [← List.filter_append] <;> rfl

theorem count_probes_step_some {lbake r : EEVEE_LightBake} {ob : Object}
    (h : count_probes_step lbake ob = some r) :
    r.grid_count = lbake.grid_count + (grid_probes [ob]).length ∧
    r.cube_count = lbake.cube_count + (cube_probes [ob]).length ∧
    r.total_irr_samples
      = lbake.total_irr_samples + ((grid_probes [ob]).map grid_samples).sum ∧
    r.gl_context = lbake.gl_context ∧ r.gwn_context = lbake.gwn_context ∧
    r.rt_fb = lbake.rt_fb := by
  unfold count_probes_step at h
  split at h
  · rename_i hty
    dsimp only at h
    split at h
    · rename_i hgrid
      simp only [Option.bind_eq_bind, Option.bind_eq_some, Option.pure_def,
        Option.some.injEq] at h
      obtain ⟨xy, hxy, xyz, hxyz, total, htotal, count, hcount, rfl⟩ := h
      obtain ⟨rfl, -, -⟩ := int_result_eq_some hxy
      obtain ⟨rfl, -, -⟩ := int_result_eq_some hxyz
      obtain ⟨rfl, -, -⟩ := int_result_eq_some htotal
      obtain ⟨rfl, -⟩ := count_incr_some hcount
      simp [grid_probes, cube_probes, is_grid_probe, is_cube_probe, hty, hgrid, grid_samples]
    · rename_i hgrid
      split at h
      · rename_i hcube
        simp only [Option.bind_eq_bind, Option.bind_eq_some, Option.pure_def,
          Option.some.injEq] at h
        obtain ⟨count, hcount, rfl⟩ := h
        obtain ⟨rfl, -⟩ := count_incr_some hcount
        simp [grid_probes, cube_probes, is_grid_probe, is_cube_probe, hty, hgrid, hcube]
      · rename_i hcube
        simp only [Option.pure_def, Option.some.injEq] at h
        subst h
        simp [grid_probes, cube_probes, is_grid_probe, is_cube_probe, hty, hgrid, hcube]
  · rename_i hty
    simp only [Option.pure_def, Option.some.injEq] at h
    subst h
    simp [grid_probes, cube_probes, is_grid_probe, is_cube_probe, hty]

theorem count_probes_loop_some (objects : List Object) (lbake r : EEVEE_LightBake)
    (h : count_probes_loop objects lbake = some r) :
    r.grid_count = lbake.grid_count + (grid_probes objects).length ∧
    r.cube_count = lbake.cube_count + (cube_probes objects).length ∧
    r.total_irr_samples
      = lbake.total_irr_samples + ((grid_probes objects).map grid_samples).sum ∧
    r.gl_context = lbake.gl_context ∧ r.gwn_context = lbake.gwn_context ∧
    r.rt_fb = lbake.rt_fb := by
  induction objects generalizing lbake with
  | nil =>
    simp only [count_probes_loop, Option.some.injEq] at h
    subst h
    simp [grid_probes, cube_probes]
  | cons ob rest ih =>
    simp only [count_probes_loop, Option.bind_eq_some] at h
    obtain ⟨mid, hstep, hrest⟩ := h
    obtain ⟨s1, s2, s3, s4, s5, s6⟩ := count_probes_step_some hstep
    obtain ⟨r1, r2, r3, r4, r5, r6⟩ := ih mid hrest
    obtain ⟨pg, pc⟩ := probes_cons ob rest
    rw [pg, pc, List.length_append, List.length_append, List.map_append, List.sum_append]
    refine ⟨by omega, by omega, by omega, ?_, ?_, ?_⟩
    · rw [r4, s4]
    · rw [r5, s5]
    · rw [r6, s6]

/-- A grid probe whose three resolutions are at least 1. -/
theorem grid_samples_pos (ob : Object)
    (h : 1 ≤ ob.data.grid_resolution_x ∧ 1 ≤ ob.data.grid_resolution_y ∧
      1 ≤ ob.data.grid_resolution_z) :
    1 ≤ ob.data.grid_resolution_x * ob.data.grid_resolution_y ∧
    ob.data.grid_resolution_x * ob.data.grid_resolution_y ≤ grid_samples ob ∧
    1 ≤ grid_samples ob := by
  obtain ⟨hx, hy, hz⟩ := h
  unfold grid_samples
  have hxy : 1 ≤ ob.data.grid_resolution_x * ob.data.grid_resolution_y := by
    have := Int.mul_le_mul hx hy (by norm_num) (by omega)
    omega
  have hxyz : ob.data.grid_resolution_x * ob.data.grid_resolution_y * 1
      ≤ ob.data.grid_resolution_x * ob.data.grid_resolution_y * ob.data.grid_resolution_z :=
    Int.mul_le_mul_of_nonneg_left hz (by omega)
  refine ⟨hxy, by omega, by omega⟩

theorem grid_samples_sum_ge (probes : List Object)
    (h : ∀ ob ∈ probes, 1 ≤ ob.data.grid_resolution_x ∧ 1 ≤ ob.data.grid_resolution_y ∧
      1 ≤ ob.data.grid_resolution_z) :
    (probes.length : Int) ≤ (probes.map grid_samples).sum := by
  induction probes with
  | nil => simp
  | cons ob rest ih =>
    simp only [List.mem_cons, forall_eq_or_imp] at h
    obtain ⟨-, -, hpos⟩ := grid_samples_pos ob h.1
    have := ih h.2
    simp only [List.length_cons, List.map_cons, List.sum_cons]
    push_cast
    omega

theorem count_probes_loop_returns (objects : List Object) (lbake : EEVEE_LightBake)
    (hres : ∀ ob ∈ grid_probes objects, 1 ≤ ob.data.grid_resolution_x ∧
      1 ≤ ob.data.grid_resolution_y ∧ 1 ≤ ob.data.grid_resolution_z)
    (h0 : 0 ≤ lbake.total_irr_samples)
    (hsum : lbake.total_irr_samples + ((grid_probes objects).map grid_samples).sum ≤ INT_MAX)
    (hgrid : (lbake.grid_count : Int) + (grid_probes objects).length ≤ INT_MAX)
    (hcube : (lbake.cube_count : Int) + (cube_probes objects).length ≤ INT_MAX) :
    ∃ r, count_probes_loop objects lbake = some r := by
  induction objects generalizing lbake with
  | nil => exact ⟨lbake, rfl⟩
  | cons ob rest ih =>
    obtain ⟨pg, pc⟩ := probes_cons ob rest
    rw [pg] at hres hsum hgrid
    rw [pc] at hcube
    simp only [List.mem_append, List.map_append, List.sum_append, List.length_append,
      Nat.cast_add] at hres hsum hgrid hcube
    have hrest_nonneg : (0 : Int) ≤ ((grid_probes rest).map grid_samples).sum := by
      have := grid_samples_sum_ge (grid_probes rest) (fun o ho => hres o (Or.inr ho))
      omega
    have hstep : ∃ mid, count_probes_step lbake ob = some mid ∧
        0 ≤ mid.total_irr_samples := by
      unfold count_probes_step
      split
      · rename_i hty
        dsimp only
        split
        · rename_i hg
          have hmem : ob ∈ grid_probes [ob] := by
            simp [grid_probes, is_grid_probe, hty, hg]
          have hone : grid_probes [ob] = [ob] := by
            simp [grid_probes, is_grid_probe, hty, hg]
          obtain ⟨p1, p2, p3⟩ := grid_samples_pos ob (hres ob (Or.inl hmem))
          rw [hone] at hsum hgrid
          simp only [List.map_cons, List.map_nil, List.sum_cons, List.sum_nil, Int.add_zero,
            List.length_singleton, Nat.cast_one] at hsum hgrid
          have hdef : grid_samples ob = ob.data.grid_resolution_x *
              ob.data.grid_resolution_y * ob.data.grid_resolution_z := rfl
          rw [hdef] at p2 p3 hsum
          have e1 : int_mul ob.data.grid_resolution_x ob.data.grid_resolution_y
              = some (ob.data.grid_resolution_x * ob.data.grid_resolution_y) :=
            int_result_some _ (by unfold INT_MIN; omega) (by omega)
          have e2 : int_mul (ob.data.grid_resolution_x * ob.data.grid_resolution_y)
              ob.data.grid_resolution_z
              = some (ob.data.grid_resolution_x * ob.data.grid_resolution_y *
                  ob.data.grid_resolution_z) :=
            int_result_some _ (by unfold INT_MIN; omega) (by omega)
          have e3 : int_add lbake.total_irr_samples
              (ob.data.grid_resolution_x * ob.data.grid_resolution_y *
                  ob.data.grid_resolution_z)
              = some (lbake.total_irr_samples + ob.data.grid_resolution_x *
                  ob.data.grid_resolution_y * ob.data.grid_resolution_z) :=
            int_result_some _ (by unfold INT_MIN; omega) (by omega)
          have e4 := count_incr_returns lbake.grid_count (by omega)
          simp only [Option.bind_eq_bind, Option.pure_def, e1, e2, e3, e4, Option.some_bind]
          exact ⟨_, rfl, by dsimp only; omega⟩
        · rename_i hg
          split
          · rename_i hc
            have hone : cube_probes [ob] = [ob] := by
              simp [cube_probes, is_cube_probe, hty, hc]
            rw [hone] at hcube
            simp only [List.length_singleton, Nat.cast_one] at hcube
            have e4 := count_incr_returns lbake.cube_count (by omega)
            simp only [Option.bind_eq_bind, Option.pure_def, e4, Option.some_bind]
            exact ⟨_, rfl, h0⟩
          · exact ⟨_, rfl, h0⟩
      · exact ⟨_, rfl, h0⟩
    obtain ⟨mid, hmid, hmid0⟩ := hstep
    obtain ⟨s1, s2, s3, -, -, -⟩ := count_probes_step_some hmid
    obtain ⟨r, hr⟩ := ih mid (fun o ho => hres o (Or.inr ho)) hmid0
      (by rw [s3]; omega) (by rw [s1]; push_cast; omega) (by rw [s2]; push_cast; omega)
    exact ⟨r, by simp only [count_probes_loop, hmid, Option.some_bind, hr]⟩

theorem count_probes_some {objects : List Object} {lbake r : EEVEE_LightBake}
    (h : eevee_lightbake_count_probes objects lbake = some r) :
    r.grid_count = (grid_probes objects).length + 1 ∧
    r.cube_count = (cube_probes objects).length + 1 ∧
    r.total_irr_samples = 1 + ((grid_probes objects).map grid_samples).sum ∧
    r.gl_context = lbake.gl_context ∧ r.gwn_context = lbake.gwn_context ∧
    r.rt_fb = lbake.rt_fb := by
  unfold eevee_lightbake_count_probes at h
  obtain ⟨h1, h2, h3, h4, h5, h6⟩ := count_probes_loop_some _ _ _ h
  simp only at h1 h2 h3 h4 h5 h6
  exact ⟨by omega, by omega, h3, h4, h5, h6⟩

theorem count_probes_returns (objects : List Object) (lbake : EEVEE_LightBake)
    (hres : ∀ ob ∈ grid_probes objects, 1 ≤ ob.data.grid_resolution_x ∧
      1 ≤ ob.data.grid_resolution_y ∧ 1 ≤ ob.data.grid_resolution_z)
    (hsum : 1 + ((grid_probes objects).map grid_samples).sum ≤ INT_MAX)
    (hcube : ((cube_probes objects).length : Int) + 1 ≤ INT_MAX) :
    ∃ r, eevee_lightbake_count_probes objects lbake = some r := by
  unfold eevee_lightbake_count_probes
  have hge := grid_samples_sum_ge (grid_probes objects) hres
  exact count_probes_loop_returns objects _ hres (by norm_num) hsum
    (by dsimp only; push_cast; omega) (by dsimp only; push_cast; omega)

set_option maxRecDepth 100000 in
/-- C2, as stated, fails: 128 grid probes of resolution 256 x 256 x 256 hold
2147483648 samples, so one plus their sum is above `INT_MAX` and is not a value
of the `int` field `total_irr_samples`; the sum of the counting pass goes out of
the `int` range. -/
theorem count_probes_total_overflow :
    (grid_probes (List.replicate 128 full_grid_probe)).length = 128 ∧
    1 + ((grid_probes (List.replicate 128 full_grid_probe)).map grid_samples).sum
      = 2147483649 ∧
    INT_MAX < 2147483649 ∧
    eevee_lightbake_count_probes (List.replicate 128 full_grid_probe) zeroed_job = none := by
  decide

/-- C2, amended: for every sequence of evaluated objects on which no product,
sum or increment of `eevee_lightbake_count_probes` leaves the `int` range, it
sets `grid_count` to the number of grid probes plus one, `cube_count` to the
number of cube probes plus one and `total_irr_samples` to one plus the sum of
`grid_resolution_x * grid_resolution_y * grid_resolution_z` over the grid
probes (objects that are no light probe and probes of another type are
ignored).  Nothing leaves the range when every grid probe has resolutions of at
least 1, one plus that sum is at most `INT_MAX` and so is the number of cube
probes plus one.  No object gives (1, 1, 1), and one 4 x 4 x 4 grid probe with
one cube probe gives (2, 2, 65). -/
theorem count_probes_counts (objects : List Object) (lbake : EEVEE_LightBake) :
    (∀ r, eevee_lightbake_count_probes objects lbake = some r →
      r.grid_count = (grid_probes objects).length + 1 ∧
      r.cube_count = (cube_probes objects).length + 1 ∧
      r.total_irr_samples = 1 + ((grid_probes objects).map grid_samples).sum) ∧
    ((∀ ob ∈ grid_probes objects, 1 ≤ ob.data.grid_resolution_x ∧
        1 ≤ ob.data.grid_resolution_y ∧ 1 ≤ ob.data.grid_resolution_z) →
      1 + ((grid_probes objects).map grid_samples).sum ≤ INT_MAX →
      ((cube_probes objects).length : Int) + 1 ≤ INT_MAX →
      ∃ r, eevee_lightbake_count_probes objects lbake = some r) ∧
    (eevee_lightbake_count_probes [] lbake).map
      (fun r => (r.grid_count, r.cube_count, r.total_irr_samples)) = some (1, 1, 1) ∧
    (eevee_lightbake_count_probes [sample_grid_probe, sample_cube_probe] lbake).map
      (fun r => (r.grid_count, r.cube_count, r.total_irr_samples)) = some (2, 2, 65) := by
  refine ⟨?_, ?_, ?_, ?_⟩
  · intro r hr
    obtain ⟨h1, h2, h3, -⟩ := count_probes_some hr
    exact ⟨h1, h2, h3⟩
  · intro hres hsum hcube
    exact count_probes_returns objects lbake hres hsum hcube
  · rfl
  · obtain ⟨r, hr⟩ := count_probes_returns [sample_grid_probe, sample_cube_probe] lbake
      (by decide) (by decide) (by decide)
    obtain ⟨h1, h2, h3, -⟩ := count_probes_some hr
    have e1 : (grid_probes [sample_grid_probe, sample_cube_probe]).length = 1 := by decide
    have e2 : (cube_probes [sample_grid_probe, sample_cube_probe]).length = 1 := by decide
    have e3 : ((grid_probes [sample_grid_probe, sample_cube_probe]).map grid_samples).sum
        = 64 := by decide
    rw [e1] at h1
    rw [e2] at h2
    rw [e3] at h3
    rw [hr, Option.map_some', h1, h2, h3]
    rfl

/-- The counting pass on one 4 x 4 x 4 grid probe and one cube probe. -/
theorem count_probes_counts_witness :
    ∃ r, eevee_lightbake_count_probes [sample_grid_probe, sample_cube_probe] zeroed_job
        = some r ∧
      r.grid_count = (grid_probes [sample_grid_probe, sample_cube_probe]).length + 1 ∧
      r.cube_count = (cube_probes [sample_grid_probe, sample_cube_probe]).length + 1 ∧
      r.total_irr_samples
        = 1 + ((grid_probes [sample_grid_probe, sample_cube_probe]).map grid_samples).sum :=
  match (count_probes_counts [sample_grid_probe, sample_cube_probe] zeroed_job).2.1
      (by decide) (by decide) (by decide) with
  | ⟨r, hr⟩ =>
    ⟨r, hr, (count_probes_counts [sample_grid_probe, sample_cube_probe] zeroed_job).1 r hr⟩

/-- C8: the back-reference of a cube probe goes to `grid_prb`.  With one cube
probe and no grid probe the store `grid_prb[1]` is outside the one entry
`grid_prb` holds; with one grid probe followed by one cube probe, and a cache
that has room for both records, `grid_prb[1]` ends up as the cube probe and
`cube_prb[1]` stays `NULL`. -/
theorem gather_probes_cube_back_reference :
    (∃ counted lbake w,
      eevee_lightbake_count_probes [sample_cube_probe] zeroed_job = some counted ∧
      eevee_lightbake_create_resources .IRRADIANCE_SH_L2 sample_settings counted fresh_world
        = some (lbake, w) ∧
      lbake.grid_prb = some [none] ∧ lbake.cube_prb = some [none, none] ∧
      array_store lbake.grid_prb 1 (some sample_cube_probe.data) = none ∧
      eevee_lightbake_gather_probes [sample_cube_probe] lbake w = none) ∧
    (∃ counted lbake w lbake1 w1,
      eevee_lightbake_count_probes [sample_grid_probe, sample_cube_probe] zeroed_job
        = some counted ∧
      eevee_lightbake_create_resources .IRRADIANCE_SH_L2 sample_settings counted
        { fresh_world with light_cache := some roomy_cache } = some (lbake, w) ∧
      eevee_lightbake_gather_probes [sample_grid_probe, sample_cube_probe] lbake w
        = some (lbake1, w1) ∧
      lbake1.grid_prb = some [none, some sample_cube_probe.data] ∧
      lbake1.cube_prb = some [none, none]) := by
  refine ⟨⟨_, _, _, rfl, rfl, ?_, ?_, ?_, ?_⟩, ⟨_, _, _, _, _, rfl, rfl, rfl, ?_, ?_⟩⟩ <;> decide

/-- C4: for every settings value, cube count and irradiance sample count the
cache `EEVEE_lightcache_create` returns has two atlas textures that are not
`NULL`, and record arrays `grid_data` and `cube_data` that are `NULL`: it holds
no entry of index 0. -/
theorem lightcache_create_record_arrays_null (eevee : SceneEEVEE) (cube_count : Nat)
    (irr_samples : Int) (w : World) :
    (EEVEE_lightcache_create eevee cube_count irr_samples w).1.grid_tx ≠ 0 ∧
    (EEVEE_lightcache_create eevee cube_count irr_samples w).1.cube_tx ≠ 0 ∧
    (EEVEE_lightcache_create eevee cube_count irr_samples w).1.grid_data = none ∧
    (EEVEE_lightcache_create eevee cube_count irr_samples w).1.cube_data = none := by
  simp [EEVEE_lightcache_create, World.create]

/-! ## Light bake job: what each step leaves unchanged -/

theorem create_face_framebuffers_trace (faces i : Nat) (rt_fb : List Handle) (w : World) :
    (create_face_framebuffers faces i rt_fb w).2.trace = w.trace := by
  induction faces generalizing i rt_fb w with
  | zero => simp [create_face_framebuffers]
  | succ n ih =>
    simp only [create_face_framebuffers]
    rw [ih]
    unfold GPU_framebuffer_ensure_config World.create
    split <;> simp

theorem create_resources_light_cache_trace (eevee : SceneEEVEE) (lbake : EEVEE_LightBake)
    (w : World) :
    (create_resources_light_cache eevee lbake w).trace = w.trace ∧
    (create_resources_light_cache eevee lbake w).light_cache ≠ none := by
  unfold create_resources_light_cache
  cases hc : w.light_cache <;>
    simp [EEVEE_lightcache_validate, EEVEE_lightcache_create, World.create, hc]

theorem create_face_framebuffers_length (faces i : Nat) (rt_fb : List Handle) (w : World) :
    (create_face_framebuffers faces i rt_fb w).1.length = rt_fb.length := by
  induction faces generalizing i rt_fb w with
  | zero => simp [create_face_framebuffers]
  | succ n ih => simp [create_face_framebuffers, ih]

theorem create_resources_frame {mode : IrradianceMode} {eevee : SceneEEVEE}
    {lbake lbake1 : EEVEE_LightBake} {w w1 : World}
    (h : eevee_lightbake_create_resources mode eevee lbake w = some (lbake1, w1)) :
    lbake1.gl_context = lbake.gl_context ∧ lbake1.gwn_context = lbake.gwn_context ∧
    lbake1.rt_fb.length = lbake.rt_fb.length ∧
    w1.trace = w.trace ∧ w1.light_cache ≠ none := by
  unfold eevee_lightbake_create_resources at h
  simp only [Option.bind_eq_bind, Option.bind_eq_some, Option.pure_def, Option.some.injEq,
    Prod.mk.injEq] at h
  obtain ⟨_, _, _, _, h1, h2⟩ := h
  subst h1 h2
  refine ⟨rfl, rfl, create_face_framebuffers_length _ _ _ _, ?_,
    (create_resources_light_cache_trace _ _ _).2⟩
  rw [(create_resources_light_cache_trace _ _ _).1]
  simp [World.create, create_face_framebuffers_trace]

theorem free_face_framebuffers_all (rt_fb : List Handle) (h : rt_fb.length = 6) :
    free_face_framebuffers 6 0 rt_fb = [0, 0, 0, 0, 0, 0] := by
  match rt_fb, h with
  | [_, _, _, _, _, _], _ => simp [free_face_framebuffers, GPU_FRAMEBUFFER_FREE_SAFE]

theorem gather_probes_loop_frame (objects : List Object) (grid_count cube_count : Nat)
    (lbake lbake1 : EEVEE_LightBake) (lcache lcache1 : Option EEVEE_LightCache)
    (h : gather_probes_loop objects grid_count cube_count lbake lcache = some (lbake1, lcache1)) :
    lbake1 = { lbake with grid_prb := lbake1.grid_prb } := by
  induction objects generalizing grid_count cube_count lbake lcache with
  | nil =>
    simp only [gather_probes_loop, Option.some.injEq, Prod.mk.injEq] at h
    rw [← h.1]
  | cons ob rest ih =>
    unfold gather_probes_loop at h
    split at h
    · dsimp only at h
      split at h
      · simp only [Option.bind_eq_bind, Option.bind_eq_some] at h
        obtain ⟨_, _, _, _, _, _, h⟩ := h
        have := ih _ _ _ _ h
        rw [this]
      · split at h
        · simp only [Option.bind_eq_bind, Option.bind_eq_some] at h
          obtain ⟨_, _, _, _, _, _, h⟩ := h
          have := ih _ _ _ _ h
          rw [this]
        · exact ih _ _ _ _ h
    · exact ih _ _ _ _ h

theorem context_enable_interactive (lbake : EEVEE_LightBake) (w : World)
    (hgl : lbake.gl_context = 0) :
    eevee_lightbake_context_enable lbake w
      = (lbake, { w with trace := w.trace ++ [.DRW_opengl_context_enable] }) := by
  simp [eevee_lightbake_context_enable, hgl, World.call]

theorem context_enable_first (lbake : EEVEE_LightBake) (w : World)
    (hgl : lbake.gl_context ≠ 0) (hgwn : lbake.gwn_context = 0) :
    eevee_lightbake_context_enable lbake w
      = ({ lbake with gwn_context := w.next_handle + 1 },
         { w with
           next_handle := w.next_handle + 1
           trace := w.trace ++ [.DRW_opengl_render_context_enable lbake.gl_context,
             .GWN_context_create (w.next_handle + 1),
             .DRW_gawain_render_context_enable (w.next_handle + 1)] }) := by
  simp [eevee_lightbake_context_enable, hgl, hgwn, World.call, World.create]

theorem context_enable_again (lbake : EEVEE_LightBake) (w : World)
    (hgl : lbake.gl_context ≠ 0) (hgwn : lbake.gwn_context ≠ 0) :
    eevee_lightbake_context_enable lbake w
      = (lbake,
         { w with
           trace := w.trace ++ [.DRW_opengl_render_context_enable lbake.gl_context,
             .DRW_gawain_render_context_enable lbake.gwn_context] }) := by
  simp [eevee_lightbake_context_enable, hgl, hgwn, World.call]

theorem context_disable_interactive (lbake : EEVEE_LightBake) (w : World)
    (hgl : lbake.gl_context = 0) :
    eevee_lightbake_context_disable lbake w
      = { w with trace := w.trace ++ [.DRW_opengl_context_disable] } := by
  simp [eevee_lightbake_context_disable, hgl, World.call]

theorem context_disable_background (lbake : EEVEE_LightBake) (w : World)
    (hgl : lbake.gl_context ≠ 0) :
    eevee_lightbake_context_disable lbake w
      = { w with
          trace := w.trace ++ [.DRW_opengl_render_context_disable lbake.gl_context,
            .DRW_gawain_render_context_disable lbake.gwn_context] } := by
  simp [eevee_lightbake_context_disable, hgl, World.call]

theorem delete_resources_interactive (lbake : EEVEE_LightBake) (w : World)
    (hgl : lbake.gl_context = 0) (hfb : lbake.rt_fb.length = 6) :
    eevee_lightbake_delete_resources lbake w
      = ({ lbake with rt_depth := 0, rt_color := 0, grid_prev := 0, rt_fb := [0, 0, 0, 0, 0, 0] },
         { w with
           trace := w.trace ++ [.DRW_opengl_context_enable, .DRW_opengl_context_disable] }) := by
  simp [eevee_lightbake_delete_resources, hgl, World.call, DRW_TEXTURE_FREE_SAFE,
    free_face_framebuffers_all _ hfb]

theorem delete_resources_background (lbake : EEVEE_LightBake) (w : World)
    (hgl : lbake.gl_context ≠ 0) (hfb : lbake.rt_fb.length = 6) :
    eevee_lightbake_delete_resources lbake w
      = ({ lbake with
           rt_depth := 0, rt_color := 0, grid_prev := 0, rt_fb := [0, 0, 0, 0, 0, 0],
           gwn_context := 0, gl_context := 0 },
         { w with
           trace := w.trace ++ [.DRW_opengl_render_context_enable lbake.gl_context,
             .DRW_gawain_render_context_enable lbake.gwn_context,
             .DRW_gawain_render_context_disable lbake.gwn_context,
             .DRW_gawain_render_context_enable lbake.gwn_context,
             .GWN_context_discard lbake.gwn_context,
             .DRW_opengl_render_context_disable lbake.gl_context,
             .WM_opengl_context_dispose lbake.gl_context] }) := by
  simp [eevee_lightbake_delete_resources, hgl, World.call, DRW_TEXTURE_FREE_SAFE,
    free_face_framebuffers_all _ hfb]

theorem job_result {mode : IrradianceMode} {bit : Nat} {objects : List Object}
    {eevee : SceneEEVEE} {stop : Int} {w wf : World} {lbake lbf : EEVEE_LightBake}
    (hgwn : lbake.gwn_context = 0) (hfb : lbake.rt_fb.length = 6)
    (h : EEVEE_lightbake_job mode bit objects eevee stop lbake w = some (lbf, wf)) :
    lbf.rt_depth = 0 ∧ lbf.rt_color = 0 ∧ lbf.grid_prev = 0 ∧
    lbf.rt_fb = [0, 0, 0, 0, 0, 0] ∧ lbf.gl_context = 0 ∧ lbf.gwn_context = 0 ∧
    ∃ world : Bool,
      wf.trace = w.trace ++
        job_calls (decide (lbake.gl_context ≠ 0)) lbake.gl_context (w.next_handle + 1) world := by
  unfold EEVEE_lightbake_job at h
  simp only [Option.bind_eq_bind, Option.bind_eq_some, Option.pure_def, Option.some.injEq] at h
  obtain ⟨lb0, hcount, ⟨lb1, w1⟩, hcreate, ⟨lb2, w2⟩, hgather, lcache, hcache, hfinal⟩ := h
  obtain ⟨-, -, -, hcnt_gl, hcnt_gwn, hcnt_fb⟩ := count_probes_some hcount
  rw [hgwn] at hcnt_gwn
  unfold eevee_lightbake_gather_probes at hgather
  simp only [Option.bind_eq_bind, Option.bind_eq_some, Option.pure_def, Option.some.injEq,
    Prod.mk.injEq] at hgather
  obtain ⟨⟨lb2', lc2⟩, hloop, hlb2, hw2⟩ := hgather
  have hg := gather_probes_loop_frame _ _ _ _ _ _ _ hloop
  simp only at hlb2 hw2 hcache hfinal
  subst hlb2
  by_cases hgl : lbake.gl_context = 0
  · have hgl0 : lb0.gl_context = 0 := by
      rw [hcnt_gl, hgl]
    rw [context_enable_interactive _ _ hgl0] at hcreate
    obtain ⟨hgl1, hgwn1, hfb1, htr1, -⟩ := create_resources_frame hcreate
    simp only at hgl1 hgwn1 hfb1 htr1
    rw [hgl0] at hgl1
    rw [hcnt_fb, hfb] at hfb1
    have hgl2 : lb2'.gl_context = 0 := by rw [hg]; exact hgl1
    have hgwn2 : lb2'.gwn_context = 0 := by rw [hg]; simp [hgwn1, hcnt_gwn]
    have hfb2 : lb2'.rt_fb.length = 6 := by rw [hg]; exact hfb1
    rw [context_disable_interactive _ _ hgl1] at hw2
    by_cases hflag : lcache.flag &&& bit = 0
    · simp only [hflag, ne_eq, not_true_eq_false, if_false] at hfinal
      rw [delete_resources_interactive _ _ hgl2 hfb2] at hfinal
      simp only [Prod.mk.injEq] at hfinal
      obtain ⟨hf1, hf2⟩ := hfinal
      subst hf1 hf2 hw2
      refine ⟨rfl, rfl, rfl, rfl, hgl2, hgwn2, false, ?_⟩
      simp [htr1, job_calls, hgl]
    · simp only [hflag, ne_eq, not_false_eq_true, if_true] at hfinal
      rw [context_enable_interactive _ _ hgl2, context_disable_interactive _ _ hgl2,
        delete_resources_interactive _ _ hgl2 hfb2] at hfinal
      simp only [Prod.mk.injEq] at hfinal
      obtain ⟨hf1, hf2⟩ := hfinal
      subst hf1 hf2 hw2
      refine ⟨rfl, rfl, rfl, rfl, hgl2, hgwn2, true, ?_⟩
      simp [htr1, job_calls, hgl, World.call]
  · have hgl0 : lb0.gl_context ≠ 0 := by
      rw [hcnt_gl]; exact hgl
    rw [context_enable_first _ _ hgl0 hcnt_gwn] at hcreate
    obtain ⟨hgl1, hgwn1, hfb1, htr1, -⟩ := create_resources_frame hcreate
    simp only at hgl1 hgwn1 hfb1 htr1
    rw [hcnt_gl] at hgl1 htr1
    rw [hcnt_fb, hfb] at hfb1
    have hgl1' : lb1.gl_context ≠ 0 := by rw [hgl1]; exact hgl
    have hgl2 : lb2'.gl_context = lbake.gl_context := by rw [hg]; exact hgl1
    have hgl2' : lb2'.gl_context ≠ 0 := by rw [hgl2]; exact hgl
    have hgwn2 : lb2'.gwn_context = w.next_handle + 1 := by rw [hg]; exact hgwn1
    have hgwn2' : lb2'.gwn_context ≠ 0 := by rw [hgwn2]; exact Nat.succ_ne_zero _
    have hfb2 : lb2'.rt_fb.length = 6 := by rw [hg]; exact hfb1
    rw [context_disable_background _ _ hgl1'] at hw2
    by_cases hflag : lcache.flag &&& bit = 0
    · simp only [hflag, ne_eq, not_true_eq_false, if_false] at hfinal
      rw [delete_resources_background _ _ hgl2' hfb2] at hfinal
      simp only [Prod.mk.injEq] at hfinal
      obtain ⟨hf1, hf2⟩ := hfinal
      subst hf1 hf2 hw2
      refine ⟨rfl, rfl, rfl, rfl, rfl, rfl, false, ?_⟩
      simp [htr1, job_calls, hgl, hgl1, hgwn1, hgl2, hgwn2]
    · simp only [hflag, ne_eq, not_false_eq_true, if_true] at hfinal
      rw [context_enable_again _ _ hgl2' hgwn2', context_disable_background _ _ hgl2',
        delete_resources_background _ _ hgl2' hfb2] at hfinal
      simp only [Prod.mk.injEq] at hfinal
      obtain ⟨hf1, hf2⟩ := hfinal
      subst hf1 hf2 hw2
      refine ⟨rfl, rfl, rfl, rfl, rfl, rfl, true, ?_⟩
      simp [htr1, job_calls, hgl, hgl1, hgwn1, hgl2, hgwn2, World.call]

theorem alloc_then_job_result {mode : IrradianceMode} {bit : Nat} {objects : List Object}
    {eevee : SceneEEVEE} {run_as_job : Bool} {stop : Int} {w wf : World}
    {lbf : EEVEE_LightBake}
    (h : lightbake_alloc_then_job mode bit objects eevee run_as_job stop w = some (lbf, wf)) :
    lbf.rt_depth = 0 ∧ lbf.rt_color = 0 ∧ lbf.grid_prev = 0 ∧
    lbf.rt_fb = [0, 0, 0, 0, 0, 0] ∧ lbf.gl_context = 0 ∧ lbf.gwn_context = 0 ∧
    ∃ world : Bool,
      wf.trace = w.trace ++ bake_calls run_as_job (w.next_handle + 1) (w.next_handle + 2) world := by
  unfold lightbake_alloc_then_job at h
  cases run_as_job
  · have h' := job_result (by simp [EEVEE_lightbake_job_data_alloc])
      (by simp [EEVEE_lightbake_job_data_alloc]) h
    simpa [EEVEE_lightbake_job_data_alloc, bake_calls] using h'
  · have h' := job_result (by simp [EEVEE_lightbake_job_data_alloc, World.create])
      (by simp [EEVEE_lightbake_job_data_alloc, World.create]) h
    simpa [EEVEE_lightbake_job_data_alloc, bake_calls, World.create, World.call] using h'

/-! ## The bake returns on a scene without light probes -/

theorem gather_probes_loop_no_probes (objects : List Object) (grid_count cube_count : Nat)
    (lbake : EEVEE_LightBake) (lcache : Option EEVEE_LightCache)
    (hg : grid_probes objects = []) (hc : cube_probes objects = []) :
    gather_probes_loop objects grid_count cube_count lbake lcache = some (lbake, lcache) := by
  induction objects with
  | nil => rfl
  | cons ob rest ih =>
    simp only [grid_probes, cube_probes, List.filter_eq_nil_iff, List.mem_cons,
      forall_eq_or_imp] at hg hc ih
    obtain ⟨hg1, hg2⟩ := hg
    obtain ⟨hc1, hc2⟩ := hc
    have ih := ih hg2 hc2
    unfold gather_probes_loop
    simp only [is_grid_probe, is_cube_probe, Bool.and_eq_true, decide_eq_true_eq, not_and]
      at hg1 hc1
    split
    · rename_i hty
      dsimp only
      rw [if_neg (hg1 hty), if_neg (hc1 hty)]
      exact ih
    · exact ih

theorem float_of_int_exact (x : Int) (h0 : 0 ≤ x) (h1 : x < 2 ^ 24) : float_of_int x = x := by
  obtain ⟨n, rfl⟩ := Int.eq_ofNat_of_zero_le h0
  have hn : n < 2 ^ 24 := by exact_mod_cast h1
  unfold float_of_int
  rw [if_pos h0]
  simp only [Int.natAbs_ofNat]
  rw [f32_of_nat_exact n hn]

theorem create_resources_returns (mode : IrradianceMode) (eevee : SceneEEVEE)
    (lbake : EEVEE_LightBake) (w : World)
    (hR1 : 1 ≤ eevee.gi_visibility_resolution)
    (hR2 : eevee.gi_visibility_resolution ≤ IRRADIANCE_MAX_POOL_SIZE)
    (hs : 1 ≤ irr_per_vis mode eevee.gi_visibility_resolution)
    (hN0 : 0 ≤ lbake.total_irr_samples) (hN1 : lbake.total_irr_samples ≤ 1024) :
    ∃ r, eevee_lightbake_create_resources mode eevee lbake w = some r := by
  have hR2' : eevee.gi_visibility_resolution ≤ 1024 := hR2
  have hf := float_of_int_exact eevee.gi_visibility_resolution (by omega) (by norm_num; omega)
  have hsize := pool_size_value mode eevee.gi_visibility_resolution lbake.total_irr_samples
    hR1 hR2' hs hN0 (by norm_num; omega)
    (by
      have : eevee.gi_visibility_resolution * lbake.total_irr_samples ≤ 1024 * 1024 :=
        Int.mul_le_mul hR2' hN1 hN0 (by norm_num)
      unfold INT_MAX; omega)
  unfold eevee_lightbake_create_resources
  simp only [hf, Option.bind_eq_bind, Option.pure_def]
  rw [int_result_some _ (by unfold INT_MIN; omega) (by unfold INT_MAX; omega)]
  simp only [Option.some_bind, hsize]
  exact ⟨_, rfl⟩

/-- A bake of a scene without grid or cube probes returns, in either mode, for
every stop flag, world flag and previous cache, provided the visibility
resolution is between 1 and `IRRADIANCE_MAX_POOL_SIZE` and holds at least one
irradiance sample. -/
theorem lightbake_returns_without_probes (mode : IrradianceMode) (bit : Nat)
    (objects : List Object) (eevee : SceneEEVEE) (run_as_job : Bool) (stop : Int) (w : World)
    (hg : grid_probes objects = []) (hc : cube_probes objects = [])
    (hR1 : 1 ≤ eevee.gi_visibility_resolution)
    (hR2 : eevee.gi_visibility_resolution ≤ IRRADIANCE_MAX_POOL_SIZE)
    (hs : 1 ≤ irr_per_vis mode eevee.gi_visibility_resolution) :
    ∃ r, lightbake_alloc_then_job mode bit objects eevee run_as_job stop w = some r := by
  unfold lightbake_alloc_then_job EEVEE_lightbake_job
  simp only [Option.bind_eq_bind, Option.pure_def]
  obtain ⟨lb0, hlb0⟩ := count_probes_returns objects
    (EEVEE_lightbake_job_data_alloc run_as_job w).1
    (by rw [hg]; intro ob hob; simp at hob)
    (by rw [hg]; decide) (by rw [hc]; decide)
  obtain ⟨-, -, htot, -⟩ := count_probes_some hlb0
  rw [hg] at htot
  simp only [List.map_nil, List.sum_nil, Int.add_zero] at htot
  rw [hlb0]
  simp only [Option.some_bind]
  generalize hen : eevee_lightbake_context_enable lb0
    (EEVEE_lightbake_job_data_alloc run_as_job w).2 = en
  have htot' : en.1.total_irr_samples = 1 := by
    rw [← hen]
    unfold eevee_lightbake_context_enable
    split
    · dsimp only
      split <;> exact htot
    · exact htot
  obtain ⟨⟨lb1, w1⟩, hcreate⟩ := create_resources_returns mode eevee en.1 en.2 hR1 hR2 hs
    (by omega) (by omega)
  obtain ⟨-, -, -, -, hcache⟩ := create_resources_frame hcreate
  have hcache' : (eevee_lightbake_context_disable lb1 w1).light_cache = w1.light_cache := by
    unfold eevee_lightbake_context_disable
    split <;> rfl
  obtain ⟨lcache, hlc⟩ := Option.ne_none_iff_exists'.mp hcache
  simp only [Option.bind_eq_bind, Option.pure_def, hcreate, Option.some_bind,
    eevee_lightbake_gather_probes, gather_probes_loop_no_probes objects 1 1 _ _ hg hc,
    hcache', hlc]
  exact ⟨_, rfl⟩

/-! ## The bake does not return when a probe meets a cache it has just created -/

theorem gather_probes_loop_null_arrays (objects : List Object) (grid_count cube_count : Nat)
    (lbake : EEVEE_LightBake) (cache : EEVEE_LightCache)
    (hgd : cache.grid_data = none) (hcd : cache.cube_data = none)
    (hp : grid_probes objects ≠ [] ∨ cube_probes objects ≠ []) :
    gather_probes_loop objects grid_count cube_count lbake (some cache) = none := by
  induction objects generalizing lbake with
  | nil => simp [grid_probes, cube_probes] at hp
  | cons ob rest ih =>
    unfold gather_probes_loop
    split
    · rename_i hty
      dsimp only
      split
      · cases hst : array_store lbake.grid_prb grid_count (some ob.data) <;>
          simp [array_store, hgd]
      · rename_i hgrid
        split
        · cases hst : array_store lbake.grid_prb cube_count (some ob.data) <;>
            simp [array_store, hcd]
        · rename_i hcube
          apply ih
          simpa [grid_probes, cube_probes, List.filter_cons, is_grid_probe, is_cube_probe,
            hty, hgrid, hcube] using hp
    · rename_i hty
      apply ih
      simpa [grid_probes, cube_probes, List.filter_cons, is_grid_probe, is_cube_probe,
        hty] using hp

theorem create_face_framebuffers_light_cache (faces i : Nat) (rt_fb : List Handle) (w : World) :
    (create_face_framebuffers faces i rt_fb w).2.light_cache = w.light_cache := by
  induction faces generalizing i rt_fb w with
  | zero => simp [create_face_framebuffers]
  | succ n ih =>
    simp only [create_face_framebuffers]
    rw [ih]
    unfold GPU_framebuffer_ensure_config World.create
    split <;> simp

theorem create_resources_fresh_cache {mode : IrradianceMode} {eevee : SceneEEVEE}
    {lbake lbake1 : EEVEE_LightBake} {w w1 : World}
    (h : eevee_lightbake_create_resources mode eevee lbake w = some (lbake1, w1))
    (hw : w.light_cache = none) :
    ∃ cache, w1.light_cache = some cache ∧ cache.grid_data = none ∧ cache.cube_data = none := by
  unfold eevee_lightbake_create_resources at h
  simp only [Option.bind_eq_bind, Option.bind_eq_some, Option.pure_def, Option.some.injEq,
    Prod.mk.injEq] at h
  obtain ⟨_, _, _, _, -, h2⟩ := h
  subst h2
  unfold create_resources_light_cache
  simp [World.create, create_face_framebuffers_light_cache, hw, EEVEE_lightcache_validate,
    EEVEE_lightcache_create]

/-- A bake of a scene that has a grid or cube probe and no light cache yet does
not return, in either mode and whatever the settings: the cache it creates
holds no record array, and the first probe is stored outside. -/
theorem lightbake_fails_with_probes (mode : IrradianceMode) (bit : Nat)
    (objects : List Object) (eevee : SceneEEVEE) (run_as_job : Bool) (stop : Int) (w : World)
    (hw : w.light_cache = none)
    (hp : grid_probes objects ≠ [] ∨ cube_probes objects ≠ []) :
    lightbake_alloc_then_job mode bit objects eevee run_as_job stop w = none := by
  unfold lightbake_alloc_then_job EEVEE_lightbake_job
  simp only [Option.bind_eq_bind, Option.pure_def]
  cases hcount : eevee_lightbake_count_probes objects
      (EEVEE_lightbake_job_data_alloc run_as_job w).1 with
  | none => rfl
  | some lb0 =>
  simp only [Option.some_bind]
  generalize hen : eevee_lightbake_context_enable lb0
    (EEVEE_lightbake_job_data_alloc run_as_job w).2 = en
  have hen' : en.2.light_cache = none := by
    rw [← hen]
    have h0 : (EEVEE_lightbake_job_data_alloc run_as_job w).2.light_cache = none := by
      unfold EEVEE_lightbake_job_data_alloc
      cases run_as_job <;> simpa [World.create, World.call] using hw
    unfold eevee_lightbake_context_enable
    split
    · dsimp only
      split <;> simpa [World.create, World.call] using h0
    · simpa [World.call] using h0
  cases hcreate : eevee_lightbake_create_resources mode eevee en.1 en.2 with
  | none => rfl
  | some r =>
    obtain ⟨lb1, w1⟩ := r
    obtain ⟨cache, hc, hgd, hcd⟩ := create_resources_fresh_cache hcreate hen'
    have hdis : (eevee_lightbake_context_disable lb1 w1).light_cache = some cache := by
      unfold eevee_lightbake_context_disable
      split <;> simpa [World.call] using hc
    simp only [Option.some_bind, eevee_lightbake_gather_probes, Option.bind_eq_bind, hdis,
      gather_probes_loop_null_arrays objects 1 1 lb1 cache hgd hcd hp, Option.none_bind]

/-- C3: a bake of a scene with one 4 x 4 x 4 grid probe and no light cache yet.
The counting pass and `eevee_lightbake_create_resources` succeed and leave a
cache whose `grid_data` is `NULL`; `eevee_lightbake_gather_probes` then stores
the record of the probe at index 1 of that array, outside any block, and the
job does not return.  The same holds of every scene that has a grid or cube
probe and no light cache yet. -/
theorem gather_probes_store_outside_cache :
    (∃ counted lbake w,
      eevee_lightbake_count_probes [sample_grid_probe] zeroed_job = some counted ∧
      eevee_lightbake_create_resources .IRRADIANCE_SH_L2 sample_settings counted fresh_world
        = some (lbake, w) ∧
      lbake.grid_count = 2 ∧
      w.light_cache.map (fun c => c.grid_data) = some none ∧
      eevee_lightbake_gather_probes [sample_grid_probe] lbake w = none ∧
      lightbake_alloc_then_job .IRRADIANCE_SH_L2 1 [sample_grid_probe] sample_settings false 0
        fresh_world = none) ∧
    (∀ (mode : IrradianceMode) (bit : Nat) (objects : List Object) (eevee : SceneEEVEE)
      (run_as_job : Bool) (stop : Int) (w : World),
      w.light_cache = none → grid_probes objects ≠ [] ∨ cube_probes objects ≠ [] →
      lightbake_alloc_then_job mode bit objects eevee run_as_job stop w = none) := by
  refine ⟨⟨_, _, _, rfl, rfl, ?_, ?_, ?_, ?_⟩, ?_⟩
  · decide
  · decide
  · decide
  · decide
  · intro mode bit objects eevee run_as_job stop w hw hp
    exact lightbake_fails_with_probes mode bit objects eevee run_as_job stop w hw hp

/-! ## Teardown, context creation and context bracketing -/

/-- C5: whenever a bake (`EEVEE_lightbake_job_data_alloc`, then
`EEVEE_lightbake_job`) returns, in either mode and for every stop flag and world
flag, `rt_depth`, `rt_color`, `grid_prev`, the six `rt_fb` entries, `gl_context`
and `gwn_context` are all `NULL`; when it ran as a job, the calls end with the
discard of the gawain context and the disposal of the background context that
were created. -/
theorem lightbake_job_teardown (mode : IrradianceMode) (bit : Nat) (objects : List Object)
    (eevee : SceneEEVEE) (run_as_job : Bool) (stop : Int) (w wf : World) (lbf : EEVEE_LightBake)
    (h : lightbake_alloc_then_job mode bit objects eevee run_as_job stop w = some (lbf, wf)) :
    lbf.rt_depth = 0 ∧ lbf.rt_color = 0 ∧ lbf.grid_prev = 0 ∧
    lbf.rt_fb = [0, 0, 0, 0, 0, 0] ∧ lbf.gl_context = 0 ∧ lbf.gwn_context = 0 ∧
    (run_as_job = true → ∃ gl gwn calls, gl ≠ 0 ∧ gwn ≠ 0 ∧
      wf.trace = w.trace ++ calls ++
        [.GWN_context_discard gwn, .DRW_opengl_render_context_disable gl,
          .WM_opengl_context_dispose gl] ∧
      .WM_opengl_context_create gl ∈ calls ∧ .GWN_context_create gwn ∈ calls) := by
  obtain ⟨h1, h2, h3, h4, h5, h6, world, htr⟩ := alloc_then_job_result h
  refine ⟨h1, h2, h3, h4, h5, h6, ?_⟩
  intro hrun
  subst hrun
  refine ⟨w.next_handle + 1, w.next_handle + 2, ?_, Nat.succ_ne_zero _, Nat.succ_ne_zero _, ?_⟩
  · exact (bake_calls true (w.next_handle + 1) (w.next_handle + 2) world).dropLast.dropLast.dropLast
  · rw [htr]
    cases world <;> simp [bake_calls, job_calls]

/-- The teardown of a bake that runs as a job on a scene without objects. -/
theorem lightbake_job_teardown_witness :
    ∃ lbf wf,
      lightbake_alloc_then_job .IRRADIANCE_SH_L2 1 [] sample_settings true 0 fresh_world
        = some (lbf, wf) ∧
      lbf.rt_depth = 0 ∧ lbf.rt_color = 0 ∧ lbf.grid_prev = 0 ∧
      lbf.rt_fb = [0, 0, 0, 0, 0, 0] ∧ lbf.gl_context = 0 ∧ lbf.gwn_context = 0 ∧
      (true = true → ∃ gl gwn calls, gl ≠ 0 ∧ gwn ≠ 0 ∧
        wf.trace = fresh_world.trace ++ calls ++
          [.GWN_context_discard gwn, .DRW_opengl_render_context_disable gl,
            .WM_opengl_context_dispose gl] ∧
        .WM_opengl_context_create gl ∈ calls ∧ .GWN_context_create gwn ∈ calls) :=
  ⟨_, _, rfl,
    lightbake_job_teardown .IRRADIANCE_SH_L2 1 [] sample_settings true 0 fresh_world _ _ rfl⟩

/-- C6: over `EEVEE_lightbake_job_data_alloc` followed by `EEVEE_lightbake_job`,
when the job returns: with `run_as_job` false no context is created, disposed
or discarded; with `run_as_job` true `WM_opengl_context_create` and
`GWN_context_create` are each called exactly once, and the two contexts they
return are disposed, resp. discarded, exactly once. -/
theorem lightbake_context_creations (mode : IrradianceMode) (bit : Nat) (objects : List Object)
    (eevee : SceneEEVEE) (run_as_job : Bool) (stop : Int) (w wf : World) (lbf : EEVEE_LightBake)
    (h : lightbake_alloc_then_job mode bit objects eevee run_as_job stop w = some (lbf, wf)) :
    ∃ calls, wf.trace = w.trace ++ calls ∧
      (run_as_job = false →
        calls.filter is_WM_opengl_context_create = [] ∧
        calls.filter is_GWN_context_create = [] ∧
        calls.filter is_WM_opengl_context_dispose = [] ∧
        calls.filter is_GWN_context_discard = []) ∧
      (run_as_job = true → ∃ gl gwn,
        calls.filter is_WM_opengl_context_create = [.WM_opengl_context_create gl] ∧
        calls.filter is_GWN_context_create = [.GWN_context_create gwn] ∧
        calls.filter is_WM_opengl_context_dispose = [.WM_opengl_context_dispose gl] ∧
        calls.filter is_GWN_context_discard = [.GWN_context_discard gwn]) := by
  obtain ⟨-, -, -, -, -, -, world, htr⟩ := alloc_then_job_result h
  refine ⟨_, htr, ?_, ?_⟩
  · intro hrun
    subst hrun
    cases world <;>
      simp [bake_calls, job_calls, List.filter, is_WM_opengl_context_create,
        is_GWN_context_create, is_WM_opengl_context_dispose, is_GWN_context_discard]
  · intro hrun
    subst hrun
    refine ⟨w.next_handle + 1, w.next_handle + 2, ?_⟩
    cases world <;>
      simp [bake_calls, job_calls, List.filter, is_WM_opengl_context_create,
        is_GWN_context_create, is_WM_opengl_context_dispose, is_GWN_context_discard]

/-- The context creations of a bake that runs as a job on a scene without objects. -/
theorem lightbake_context_creations_witness :
    ∃ lbf wf,
      lightbake_alloc_then_job .IRRADIANCE_SH_L2 1 [] sample_settings true 0 fresh_world
        = some (lbf, wf) ∧
      ∃ calls, wf.trace = fresh_world.trace ++ calls ∧
        (true = false →
          calls.filter is_WM_opengl_context_create = [] ∧
          calls.filter is_GWN_context_create = [] ∧
          calls.filter is_WM_opengl_context_dispose = [] ∧
          calls.filter is_GWN_context_discard = []) ∧
        (true = true → ∃ gl gwn,
          calls.filter is_WM_opengl_context_create = [.WM_opengl_context_create gl] ∧
          calls.filter is_GWN_context_create = [.GWN_context_create gwn] ∧
          calls.filter is_WM_opengl_context_dispose = [.WM_opengl_context_dispose gl] ∧
          calls.filter is_GWN_context_discard = [.GWN_context_discard gwn]) :=
  ⟨_, _, rfl,
    lightbake_context_creations .IRRADIANCE_SH_L2 1 [] sample_settings true 0 fresh_world _ _ rfl⟩

/-- C7, as stated, fails: in a bake that runs as a job (no probe, no cache yet,
world not rendered again) the calls for the gawain context are enable, disable,
enable, disable, enable; the context is enabled a last time and discarded
without a disable. -/
theorem gawain_context_left_enabled :
    ∃ lbf wf,
      lightbake_alloc_then_job .IRRADIANCE_SH_L2 1 [] sample_settings true 0 fresh_world
        = some (lbf, wf) ∧
      enable_disable_calls (.gawain 2) wf.trace
        = [.enable, .disable, .enable, .disable, .enable] ∧
      strictly_paired (enable_disable_calls (.gawain 2) wf.trace) = false ∧
      context_calls (.gawain 2) wf.trace
        = [.enable, .disable, .enable, .disable, .enable, .destroy] := by
  refine ⟨_, _, rfl, ?_, ?_, ?_⟩ <;> decide

/-- C7, amended: whenever a bake returns, in both modes and whether or not the
world is rendered again, the calls it issues for the interactive context and
for every background GL context strictly alternate enable, disable, ...,
starting with an enable and ending with a disable, the background context
being disposed after its last disable; the calls for a gawain context are
either none, or enable / disable pairs followed by one more enable and the
discard of the context while it is enabled. -/
theorem lightbake_context_bracketing (mode : IrradianceMode) (bit : Nat) (objects : List Object)
    (eevee : SceneEEVEE) (run_as_job : Bool) (stop : Int) (w wf : World) (lbf : EEVEE_LightBake)
    (h : lightbake_alloc_then_job mode bit objects eevee run_as_job stop w = some (lbf, wf)) :
    ∃ calls, wf.trace = w.trace ++ calls ∧
      strictly_paired (enable_disable_calls .interactive calls) = true ∧
      (∀ gl, strictly_paired (enable_disable_calls (.background gl) calls) = true ∧
        paired_then_destroyed_disabled (context_calls (.background gl) calls) = true) ∧
      (∀ gwn, context_calls (.gawain gwn) calls = [] ∨
        paired_then_destroyed_enabled (context_calls (.gawain gwn) calls) = true) := by
  obtain ⟨-, -, -, -, -, -, world, htr⟩ := alloc_then_job_result h
  refine ⟨_, htr, ?_, ?_, ?_⟩
  · cases run_as_job <;> cases world <;>
      simp [bake_calls, job_calls, enable_disable_calls, context_calls, context_call,
        strictly_paired]
  · intro gl
    by_cases hgl : w.next_handle + 1 = gl
    · cases run_as_job <;> cases world <;>
        simp [bake_calls, job_calls, enable_disable_calls, context_calls, context_call, hgl,
          strictly_paired, paired_then_destroyed_disabled]
    · cases run_as_job <;> cases world <;>
        simp [bake_calls, job_calls, enable_disable_calls, context_calls, context_call, hgl,
          strictly_paired, paired_then_destroyed_disabled]
  · intro gwn
    by_cases hgwn : w.next_handle + 2 = gwn
    · cases run_as_job <;> cases world <;>
        simp [bake_calls, job_calls, context_calls, context_call, hgwn,
          paired_then_destroyed_enabled]
    · cases run_as_job <;> cases world <;>
        simp [bake_calls, job_calls, context_calls, context_call, hgwn,
          paired_then_destroyed_enabled]

/-- The context calls of a bake that runs as a job on a scene without objects. -/
theorem lightbake_context_bracketing_witness :
    ∃ lbf wf,
      lightbake_alloc_then_job .IRRADIANCE_SH_L2 1 [] sample_settings true 0 fresh_world
        = some (lbf, wf) ∧
      ∃ calls, wf.trace = fresh_world.trace ++ calls ∧
        strictly_paired (enable_disable_calls .interactive calls) = true ∧
        (∀ gl, strictly_paired (enable_disable_calls (.background gl) calls) = true ∧
          paired_then_destroyed_disabled (context_calls (.background gl) calls) = true) ∧
        (∀ gwn, context_calls (.gawain gwn) calls = [] ∨
          paired_then_destroyed_enabled (context_calls (.gawain gwn) calls) = true) :=
  ⟨_, _, rfl,
    lightbake_context_bracketing .IRRADIANCE_SH_L2 1 [] sample_settings true 0 fresh_world _ _ rfl⟩

end Eevee
